import Mathlib

/-!
# Verification of the multi-tenant FreeSWITCH configuration service

A shallow embedding of the dialplan / directory / configuration resolvers of
the `Multitenant-Freeswitch-Configuration` repository, together with proofs
and refutations of the frozen specification claims.

Conventions of the embedding:

* JavaScript values of type "string or undefined/null" are modelled as
  `Option String`; `none` stands for `undefined` (the request bodies and
  database documents of this code base never carry `null` where it would
  behave differently from `undefined` on the paths modelled here).
* JavaScript truthiness of such a value: `none` and `some ""` are falsy.
* `String(undefined)` is the string `"undefined"` (`jsToString`).
* `async` functions that can `throw` are modelled in the `Except Unit`
  monad; a thrown exception is `Except.error ()`.
* External facilities (the MongoDB store, the `fetch` HTTP client and the
  JavaScript `RegExp` engine) are parameters of the evaluation environment
  `Env`; the store is a list of tenant documents and the Mongo `findOne`
  queries used by the services are embedded over it, with an injectable
  failure flag per query standing for a database error.
-/

set_option maxRecDepth 20000
set_option maxHeartbeats 4000000

namespace Mfc

/-- JS truthiness of a string-or-undefined value: `undefined` and `""` are falsy. -/
def truthy : Option String → Bool
  | none => false
  | some s => !(s == "")

/-- `a || b` on string-or-undefined values (value semantics of JS `||`). -/
def jsOr (a b : Option String) : Option String :=
  if truthy a then a else b

/-- `a || d` where the fallback `d` is a (truthy) string literal. -/
def jsOrStr (a : Option String) (d : String) : String :=
  match a with
  | none => d
  | some s => if s == "" then d else s

/-- `String(v)` on a string-or-undefined value: `String(undefined) = "undefined"`. -/
def jsToString : Option String → String
  | none => "undefined"
  | some s => s

/-- `n || d` on a number-or-undefined value (`0` is falsy). -/
def jsOrNat (a : Option Nat) (d : Nat) : Nat :=
  match a with
  | none => d
  | some n => if n == 0 then d else n

/-- Whitespace characters trimmed by JS `String.prototype.trim` (ASCII part). -/
def isJsWs (c : Char) : Bool :=
  c == ' ' || c == '\t' || c == '\n' || c == '\r' || c == '\x0b' || c == '\x0c'

/-- JS `s.trim()`, embedded on the character list. -/
def jsTrim (s : String) : String :=
  ⟨((s.data.dropWhile isJsWs).reverse.dropWhile isJsWs).reverse⟩

/-- JS `Array.prototype.join`, value-equal to `String.intercalate`. -/
def jsJoin (sep : String) : List String → String
  | [] => ""
  | x :: xs => xs.foldl (fun acc s => acc ++ sep ++ s) x

/-- `s.startsWith(pre)`, on the character lists. -/
def strStartsWith (s pre : String) : Bool :=
  pre.data.isPrefixOf s.data

/-- Drop the first `n` characters of `s` (JS `substring(n)` for ASCII data). -/
def strDrop (s : String) (n : Nat) : String :=
  ⟨s.data.drop n⟩

/-- ASCII alphanumeric test, the class `[a-zA-Z0-9]` of the source regexes. -/
def isAlnum (c : Char) : Bool :=
  (('a' ≤ c && c ≤ 'z') || ('A' ≤ c && c ≤ 'Z') || ('0' ≤ c && c ≤ '9'))

/-- ASCII digit test, the class `\d` / `[0-9]` of the source regexes. -/
def isDigitB (c : Char) : Bool :=
  '0' ≤ c && c ≤ '9'

end Mfc

namespace Mfc

/-! ## Data model (models/Tenant.js, models/ExternalGateway.js)

Fields are restricted to those the resolvers read.  Fields that the code
reads but the schema does not necessarily populate are `Option`al; the
embedded-array fields default to `[]` in the schema and are plain lists. -/

/-- A stored dialplan action `{ application, data }`; `data` is optional. -/
structure DialplanAction where
  application : String
  data : Option String
deriving DecidableEq

/-- A SIP client document, as read by the resolvers. -/
structure SipClient where
  user_id : String
  password : String
  enable_voicemail : Bool
  voicemail_pin : Option String
  voicemail_email : Option String
  local_caller_id_name : Option String
  display_name : Option String
  no_answer_timeout : Option Nat
deriving DecidableEq

/-- A group member `{ user_id, order }`. -/
structure GroupMember where
  user_id : String
deriving DecidableEq

/-- A hunt/ring group document, as read by the resolvers. -/
structure Group where
  name : String
  type : String
  timeout : Option Nat
  members : List GroupMember
  enable_voicemail : Bool
  voicemail_box_id : Option String
  voicemail_pin : Option String
  group_email : Option String
  no_answer_action : Option DialplanAction
deriving DecidableEq

/-- A DID document, as read by the resolvers. -/
structure Did where
  did_number : String
  routing_type : String
  routing_target : String
  failover_routing_type : String
  failover_routing_target : String
  active : Bool
  voicemail_pin : Option String
  voicemail_email : Option String
deriving DecidableEq

/-- A stored explicit dialplan extension (`dialplan.default[]` entry). -/
structure DialplanEntry where
  name : String
  condition_field : String
  condition_expression : String
  actions : List DialplanAction
deriving DecidableEq

/-- The `defaultCallerID` sub-document read by `handleLocalCall`. -/
structure CallerId where
  name : Option String
  number : Option String
deriving DecidableEq

/-- The tenant profile, restricted to what the dialplan path reads. -/
structure Profile where
  defaultCallerID : Option CallerId
deriving DecidableEq

/-- A tenant aggregate document. -/
structure Tenant where
  domain_name : String
  profile : Profile
  sip_clients : List SipClient
  dialplan_default : List DialplanEntry
  groups : List Group
  dids : List Did
deriving DecidableEq

/-- A global external gateway record, as read by the configuration resolver. -/
structure Gateway where
  name : String
  realm : Option String
  username : Option String
  password : Option String
  proxy : Option String
  register : Bool
  dtmf_type : Option String
  register_transport : Option String
  rtp_secure_media : Option String
deriving DecidableEq

end Mfc

namespace Mfc

/-! ## utils/xmlGenerator.js -/

/-- `_escapeAttribute` on a single character. -/
def escAttrChar (c : Char) : List Char :=
  if c == '<' then "&lt;".data
  else if c == '>' then "&gt;".data
  else if c == '&' then "&amp;".data
  else if c == '\'' then "&apos;".data
  else if c == '"' then "&quot;".data
  else [c]

/-- `xmlGenerator._escapeAttribute`: escape `< > & ' "` for attribute values. -/
def escapeAttribute (s : String) : String :=
  ⟨(s.data.map escAttrChar).flatten⟩

/-- The structured extension object `{ name, condition_field, expression, actions[] }`
passed from the dialplan resolver to the XML generator. -/
structure ExtObj where
  name : String
  condition_field : String
  expression : String
  actions : List DialplanAction
deriving DecidableEq

/-- The request body of the dialplan endpoint: the string-valued keys that
`dialplanController.lookup` and its handlers read (`none` = key absent). -/
structure Body where
  domain : Option String
  variable_domain_name : Option String
  variable_sip_to_host : Option String
  callerContext : Option String
  variable_dialplan_context : Option String
  callerDestinationNumber : Option String
  destination_number : Option String
  callerChannelName : Option String
  variable_signalwire_actual_did : Option String
  variable_sip_to_user : Option String
  variable_sip_dest_user : Option String
  callerCallerIdNumber : Option String
  callerCallerIdName : Option String
deriving DecidableEq

/-- The defensive fallback extension of `generateDialplanXml` (its lines 18-27):
used when the extension object is missing or misses a required field. -/
def xmlGenFallbackExt (rawBody : Body) : ExtObj :=
  let safeDestination :=
    if truthy rawBody.callerDestinationNumber then
      escapeAttribute (jsToString rawBody.callerDestinationNumber)
    else "unknown"
  { name := "xml_generation_error_fallback"
    condition_field := "destination_number"
    expression := "^" ++ safeDestination ++ "$"
    actions := [⟨"answer", none⟩, ⟨"hangup", some "NORMAL_CLEARING"⟩] }

/-- The extension object actually rendered by `generateDialplanXml`: the given
one if it passes the defensive check, else the fallback.  (The `actions`
array-ness check of the source is vacuous in the typed model.) -/
def selectExt (extensionObject : Option ExtObj) (rawBody : Body) : ExtObj :=
  match extensionObject with
  | none => xmlGenFallbackExt rawBody
  | some e =>
    if e.name == "" || e.condition_field == "" || e.expression == "" then
      xmlGenFallbackExt rawBody
    else e

/-- One `<action .../>` element of `generateDialplanXml` (its lines 32-36):
`application` is attribute-escaped, `data` is emitted verbatim (`data || ''`). -/
def actionXml (a : DialplanAction) : String :=
  "<action application=\"" ++ escapeAttribute a.application ++ "\" data=\""
    ++ (a.data.getD "") ++ "\"/>"

/-- The document/section/context opening of `generateDialplanXml`, up to and
including `<context name="...">` with the context name attribute-escaped. -/
def dialplanDocPrefix (contextName : String) : String :=
  "<?xml version=\"1.0\" encoding=\"UTF-8\" standalone=\"no\"?>\n"
    ++ "<document type=\"freeswitch/xml\"><section name=\"dialplan\"><context name=\""
    ++ escapeAttribute contextName ++ "\">"

/-- The single `<extension>` element of `generateDialplanXml`: name and
condition field attribute-escaped, `expression` and action `data` verbatim. -/
def extensionXml (eo : ExtObj) : String :=
  "<extension name=\"" ++ escapeAttribute eo.name ++ "\">"
    ++ "<condition field=\"" ++ escapeAttribute eo.condition_field
    ++ "\" expression=\"" ++ eo.expression ++ "\">"
    ++ String.join (eo.actions.map actionXml)
    ++ "</condition></extension>"

/-- `xmlGenerator.generateDialplanXml`: context + one extension.  The context
name, extension name, condition field and action applications are
attribute-escaped; the condition `expression` and each action `data` are
emitted verbatim. -/
def generateDialplanXml (contextName : String) (extensionObject : Option ExtObj)
    (rawBody : Body) : String :=
  dialplanDocPrefix contextName ++ extensionXml (selectExt extensionObject rawBody)
    ++ "</context></section></document>"

/-- `xmlGenerator.generateErrorXml`: the fixed "application error" document
(context `default`; answer, playback of the cannot-be-completed announcement,
hangup), with the destination attribute-escaped. -/
def generateErrorXml (destination : Option String) : String :=
  let safeDestination := escapeAttribute (jsOrStr destination "unknown")
  "<?xml version=\"1.0\" encoding=\"UTF-8\" standalone=\"no\"?>\n"
    ++ "<document type=\"freeswitch/xml\"><section name=\"dialplan\"><context name=\"default\">\n"
    ++ "  <extension name=\"application_error\">\n"
    ++ "    <condition field=\"destination_number\" expression=\"^" ++ safeDestination ++ "$\">\n"
    ++ "      <action application=\"answer\"/>\n"
    ++ "      <action application=\"playback\" data=\"ivr/ivr-call_cannot_be_completed_as_dialed.wav\"/>\n"
    ++ "      <action application=\"hangup\"/>\n"
    ++ "    </condition>\n"
    ++ "  </extension>\n"
    ++ "</context></section></document>"

end Mfc

namespace Mfc

/-! ## Inlined utilities of controllers/dialplanController.js -/

/-- Scan for the first match of `/@([^ >]+)/` and return the captured group. -/
def findAtDomain : List Char → Option String
  | [] => none
  | c :: rest =>
    if c = '@' then
      let run := rest.takeWhile (fun c => !(c == ' ') && !(c == '>'))
      if run.isEmpty then findAtDomain rest else some ⟨run⟩
    else findAtDomain rest

/-- `extractDomain`: `null` on falsy input, else the first `/@([^ >]+)/` capture. -/
def extractDomain (s : Option String) : Option String :=
  if !truthy s then none else findAtDomain (jsToString s).data

/-- `normalizeStringForComparison`: `""` on falsy input, else strip
non-alphanumerics and lowercase. -/
def normalizeStringForComparison (str : Option String) : String :=
  if !truthy str then ""
  else ⟨((jsToString str).data.filter isAlnum).map Char.toLower⟩

/-- `normalizePhoneNumber`: `""` on falsy input, else trim and strip a
leading `+1`. -/
def normalizePhoneNumber (phoneNumber : Option String) : String :=
  if !truthy phoneNumber then ""
  else
    let normalized := jsTrim (jsToString phoneNumber)
    if strStartsWith normalized "+1" then strDrop normalized 2 else normalized

/-- The character class `[.*+?^${}()|[\]\\]` escaped by `escapeRegExp`. -/
def isRegexMeta (c : Char) : Bool :=
  c == '.' || c == '*' || c == '+' || c == '?' || c == '^' || c == '$'
    || c == '\x7b' || c == '\x7d' || c == '(' || c == ')' || c == '|'
    || c == '[' || c == ']' || c == '\\'

/-- `escapeRegExp`: backslash-escape regex metacharacters. -/
def escapeRegExp (string : String) : String :=
  ⟨(string.data.map (fun c => if isRegexMeta c then ['\\', c] else [c])).flatten⟩

/-- The anchored literal expression `^<escaped>$` emitted by every
resolver-built extension. -/
def anchoredExpr (s : String) : String :=
  "^" ++ escapeRegExp s ++ "$"

/-- "Begins with `^` and ends with `$`", on the character list. -/
def anchoredB (s : String) : Bool :=
  (s.data.head? == some '^') && (s.data.getLast? == some '$')

end Mfc

namespace Mfc

/-! ## services/signalwireService.js -/

/-- The `data.cnam` sub-object of a SignalWire lookup response. -/
structure CnamBox where
  caller_id : Option String
deriving DecidableEq

/-- The JSON body of a SignalWire lookup response, restricted to the fields
the controller reads. -/
structure CnamData where
  national_number_formatted : Option String
  cnam : Option CnamBox
  location : Option String
deriving DecidableEq

/-- The outcome of `fetch` + `response.json()` for the CNAM call:
HTTP status flag and parsed body (`none` = JSON `null`). -/
structure FetchResp where
  ok : Bool
  jsonData : Option CnamData
deriving DecidableEq

/-- The process-wide SignalWire credentials from the environment variables. -/
structure SwConfig where
  projectId : Option String
  apiToken : Option String
  spaceUrl : Option String
deriving DecidableEq

/-- The number normalization at the top of `lookupCnam`: a 10-character
number not starting with `+1` gets a `+1` prefix. -/
def formatPhoneForLookup (phoneNumber : String) : String :=
  if phoneNumber.length == 10 && !(strStartsWith phoneNumber "+1") then
    "+1" ++ phoneNumber
  else phoneNumber

/-- The SignalWire lookup URL built by `lookupCnam`. -/
def cnamApiUrl (cfg : SwConfig) (formattedPhoneNumber : String) : String :=
  "https://" ++ jsToString cfg.spaceUrl
    ++ ".signalwire.com/api/relay/rest/lookup/phone_number/"
    ++ formattedPhoneNumber ++ "?include=cnam"

/-- `signalwireService.lookupCnam`.  Throws on a falsy phone number, on
missing credentials, and on a non-2xx response or network error; returns the
parsed body (or `null`) otherwise.  The `fetch` facility is a parameter. -/
def lookupCnam (cfg : SwConfig) (fetch : String → Except Unit FetchResp)
    (phoneNumber : Option String) : Except Unit (Option CnamData) :=
  if !truthy phoneNumber then .error ()
  else if !(truthy cfg.projectId && truthy cfg.apiToken && truthy cfg.spaceUrl) then .error ()
  else
    let formatted := formatPhoneForLookup (jsToString phoneNumber)
    match fetch (cnamApiUrl cfg formatted) with
    | .error e => .error e
    | .ok resp => if !resp.ok then .error () else .ok resp.jsonData

end Mfc

namespace Mfc

/-! ## The evaluation environment and services/tenantService.js -/

/-- The external facilities of one dialplan/directory/configuration request:
the tenant store with per-query failure injection, the gateway pool, the
SignalWire credentials, `fetch`, and the JS `RegExp` engine (which can throw
on an invalid pattern). -/
structure Env where
  store : List Tenant
  byDomainErr : Bool
  byDidErr : Bool
  gateways : List Gateway
  gwErr : Bool
  swCfg : SwConfig
  fetch : String → Except Unit FetchResp
  regexTest : String → String → Except Unit Bool

/-- Decidable equality of `Except` results, for concrete evaluation. -/
instance {ε α : Type} [DecidableEq ε] [DecidableEq α] : DecidableEq (Except ε α) := fun x y =>
  match x, y with
  | .ok a, .ok b =>
    if h : a = b then .isTrue (by rw [h]) else .isFalse (by intro he; cases he; exact h rfl)
  | .error a, .error b =>
    if h : a = b then .isTrue (by rw [h]) else .isFalse (by intro he; cases he; exact h rfl)
  | .ok _, .error _ => .isFalse (by intro h; cases h)
  | .error _, .ok _ => .isFalse (by intro h; cases h)

/-- `tenantService.getTenantByDomain`: `null` on a falsy domain, else a Mongo
`findOne({domain_name})` over the store (first match in insertion order);
throws on a database error. -/
def getTenantByDomain (env : Env) (domainName : Option String) :
    Except Unit (Option Tenant) :=
  if !truthy domainName then .ok none
  else if env.byDomainErr then .error ()
  else .ok (env.store.find? (fun t => t.domain_name == jsToString domainName))

/-- The result shape of `getTenantAndDidByDidNumber`: either the tenant
document, or the `{ tenant: null, matchedDid: null }` wrapper object (a truthy
object whose `domain_name` / `dids` / `sip_clients` / `groups` are undefined). -/
inductive TenantWrap where
  | notFound
  | found (t : Tenant)
deriving DecidableEq

/-- `tenant.dids` as read through the wrapper (`undefined` when not found). -/
def TenantWrap.didsOf : TenantWrap → Option (List Did)
  | .notFound => none
  | .found t => some t.dids

/-- The Mongo query `findOne({"dids.did_number": d, "dids.active": true})`:
the two array conditions may be satisfied by different elements of `dids`. -/
def tenantQueryByActiveDid (store : List Tenant) (didNumber : String) : Option Tenant :=
  store.find? (fun t =>
    t.dids.any (fun d => d.did_number == didNumber) && t.dids.any (fun d => d.active))

/-- `tenantService.getTenantAndDidByDidNumber`: the nulls wrapper when no
tenant matches (or the matched tenant has no active DID with that number),
else the tenant document itself; throws on a database error. -/
def getTenantAndDidByDidNumber (env : Env) (didNumber : String) :
    Except Unit TenantWrap :=
  if env.byDidErr then .error ()
  else
    match tenantQueryByActiveDid env.store didNumber with
    | none => .ok .notFound
    | some t =>
      match t.dids.find? (fun d => d.did_number == didNumber && d.active) with
      | none => .ok .notFound
      | some _ => .ok (.found t)

/-- `globalConfigService.getAllExternalGateways`: the full gateway pool;
throws on a database error. -/
def getAllExternalGateways (env : Env) : Except Unit (List Gateway) :=
  if env.gwErr then .error () else .ok env.gateways

end Mfc

namespace Mfc

/-! ## controllers/dialplanController.js -/

/-- `IVR_SOUND_PATH_CALL_CANNOT_BE_COMPLETED` (= `IVR_SOUND_PATH_INVALID_DOMAIN`). -/
def ivrCannotBeCompleted : String := "ivr/ivr-call_cannot_be_completed_as_dialed.wav"

/-- `IVR_SOUND_PATH_INVALID_ENTRY`. -/
def ivrInvalidEntry : String := "ivr/ivr-that_was_an_invalid_entry.wav"

/-- `getNoMatchFallback`: the invalid-extension announce program. -/
def getNoMatchFallback (destination : Option String) : ExtObj :=
  { name := "invalid_extension_fallback"
    condition_field := "destination_number"
    expression := anchoredExpr (jsToString destination)
    actions := [⟨"answer", none⟩, ⟨"playback", some ivrInvalidEntry⟩, ⟨"hangup", none⟩] }

/-- The caller-id set/export preamble of `handleInboundCall` (its lines 107-119). -/
def inboundPreamble (name number : String) : List DialplanAction :=
  [⟨"set", some ("caller_id_name=" ++ name)⟩,
   ⟨"export", some ("caller_id_name=" ++ name)⟩,
   ⟨"set", some ("caller_id_number=" ++ number)⟩,
   ⟨"export", some ("caller_id_number=" ++ number)⟩,
   ⟨"set", some ("effective_caller_id_name=" ++ name)⟩,
   ⟨"export", some ("effective_caller_id_name=" ++ name)⟩,
   ⟨"set", some ("effective_caller_id_number=" ++ number)⟩,
   ⟨"export", some ("effective_caller_id_number=" ++ number)⟩]

/-- The SIP-variable set/export block of `handleInboundCall` (its lines 122-139),
emitted only when the DID lookup produced a tenant with a truthy `domain_name`. -/
def inboundSipVars (name number domainName : String) : List DialplanAction :=
  [⟨"set", some ("sip_invite_domain=" ++ domainName)⟩,
   ⟨"export", some ("sip_invite_domain=" ++ domainName)⟩,
   ⟨"set", some ("sip_from_host=" ++ domainName)⟩,
   ⟨"export", some ("sip_from_host=" ++ domainName)⟩,
   ⟨"set", some ("sip_from_user=" ++ number)⟩,
   ⟨"export", some ("sip_from_user=" ++ number)⟩,
   ⟨"set", some ("sip_from_display=" ++ name)⟩,
   ⟨"export", some ("sip_from_display=" ++ name)⟩,
   ⟨"set", some ("sip_from_uri=" ++ number ++ "@" ++ domainName)⟩,
   ⟨"export", some ("sip_from_uri=" ++ number ++ "@" ++ domainName)⟩]

/-- The routing dispatch of `handleInboundCall` on `matchedDid.routing_type`:
`none` when the referenced extension/group target does not exist. -/
def inboundRouting (t : Tenant) (matchedDid : Did) : Option (String × String) :=
  if matchedDid.routing_type == "extension" then
    match t.sip_clients.find? (fun client => client.user_id == matchedDid.routing_target) with
    | some targetExtension => some ("bridge", "user/" ++ targetExtension.user_id ++ "@" ++ t.domain_name)
    | none => none
  else if matchedDid.routing_type == "group" then
    match t.groups.find? (fun group => group.name == matchedDid.routing_target) with
    | some targetGroup =>
      let membersBridgeStrings := targetGroup.members.map
        (fun member => "user/" ++ member.user_id ++ "@" ++ t.domain_name)
      some ("bridge",
        if targetGroup.type == "hunt" then jsJoin "|" membersBridgeStrings
        else jsJoin "," membersBridgeStrings)
    | none => none
  else if matchedDid.routing_type == "ivr" then
    some ("transfer", matchedDid.routing_target ++ " XML " ++ t.domain_name ++ "_ivr_context")
  else
    some ("transfer", matchedDid.routing_target)

/-- The failover tail of `handleInboundCall` (its lines 216-234). -/
def inboundFailover (matchedDid : Did) (domainName : String) : List DialplanAction :=
  if matchedDid.failover_routing_type == "dialplan_extension"
      && !(matchedDid.failover_routing_target == "") then
    [⟨"log", some ("INFO Primary DID route for " ++ matchedDid.did_number
        ++ " failed. Attempting failover.")⟩]
    ++ (if strStartsWith matchedDid.failover_routing_target "voicemail_" then
          let vmBoxId := strDrop matchedDid.failover_routing_target 10
          [⟨"answer", some ""⟩, ⟨"sleep", some "1000"⟩,
           ⟨"voicemail", some ("default " ++ domainName ++ " " ++ vmBoxId)⟩,
           ⟨"log", some ("INFO Sent DID call to voicemail for " ++ vmBoxId
              ++ ". Originate Disposition: $\x7boriginate_disposition\x7d")⟩,
           ⟨"hangup", some ""⟩]
        else [])
  else
    [⟨"answer", some ""⟩, ⟨"playback", some ivrCannotBeCompleted⟩, ⟨"hangup", some ""⟩]

/-- `handleInboundCall`: CNAM enrichment, caller-id rewrite, DID-owner lookup
and routing dispatch.  Returns `none` (JS `null`) when no active DID matches
or the routing target is missing; throws when `lookupCnam` throws, when the
CNAM record lacks a `cnam` sub-object, or when the store throws. -/
def handleInboundCall (env : Env) (body : Body) (domain : Option String)
    (effectiveDestination : String) : Except Unit (Option ExtObj) := do
  let cnamData ← lookupCnam env.swCfg env.fetch body.callerCallerIdNumber
  let preName : Option String ←
    match cnamData with
    | some cd =>
      match cd.cnam with
      | none => Except.error ()
      | some box => Except.ok (some (jsToString cd.national_number_formatted ++ ", "
          ++ jsToString box.caller_id ++ ", " ++ jsToString cd.location))
    | none => Except.ok body.callerCallerIdName
  let effectiveCallerIdNumber := normalizePhoneNumber body.callerCallerIdNumber
  let effectiveCallerIdName := normalizePhoneNumber preName
  let tenant ← getTenantAndDidByDidNumber env effectiveDestination
  match tenant with
  | .notFound => Except.ok none
  | .found t =>
    let actions := inboundPreamble effectiveCallerIdName effectiveCallerIdNumber
      ++ (if !(t.domain_name == "") then
            inboundSipVars effectiveCallerIdName effectiveCallerIdNumber t.domain_name
          else [])
    let normalizedEffectiveDestination :=
      if effectiveDestination.length == 10 && effectiveDestination.data.all isDigitB then
        "+1" ++ effectiveDestination
      else effectiveDestination
    match t.dids.find? (fun did => did.did_number == normalizedEffectiveDestination) with
    | none => Except.ok none
    | some matchedDid =>
      let actions := actions
        ++ [⟨"set", some "continue_on_fail=true"⟩, ⟨"set", some "hangup_after_bridge=true"⟩]
      match inboundRouting t matchedDid with
      | none => Except.ok none
      | some (routingApplication, routingData) =>
        Except.ok (some
          { name := "did_inbound_"
              ++ ⟨matchedDid.did_number.data.filter (fun c => isAlnum c || c == '+')⟩
            condition_field := "destination_number"
            expression := anchoredExpr effectiveDestination
            actions := actions ++ [⟨routingApplication, some routingData⟩]
              ++ inboundFailover matchedDid t.domain_name })

/-- `s.length == 10 && all digits`, the `(\d{10})` tail of the PSTN regex. -/
def pstnDigits10 (s : String) : Bool :=
  s.length == 10 && s.data.all isDigitB

/-- The anchored match of `/^(\+?1?)?(\d{10})$/` returning the captured
10-digit group (the prefix length is determined by the input length). -/
def pstnMatch (s : String) : Option String :=
  if s.length == 12 && strStartsWith s "+1" && pstnDigits10 (strDrop s 2) then some (strDrop s 2)
  else if s.length == 11 && (strStartsWith s "+" || strStartsWith s "1") && pstnDigits10 (strDrop s 1) then
    some (strDrop s 1)
  else if pstnDigits10 s then some s
  else none

/-- `handleOutboundCall`: route a PSTN-looking destination via the first
global gateway; `none` when the pool is empty or the number does not match;
throws on an undefined destination (JS `TypeError` on `.match`) and on a
store error. -/
def handleOutboundCall (env : Env) (body : Body)
    (effectiveDestination : Option String) : Except Unit (Option ExtObj) := do
  match effectiveDestination with
  | none => Except.error ()
  | some dest =>
    match pstnMatch dest with
    | none => Except.ok none
    | some raw10 => do
      let globalGateways ← getAllExternalGateways env
      if globalGateways.length > 0 then
        Except.ok (some
          { name := "outbound_pstn_" ++ raw10
            condition_field := "destination_number"
            expression := anchoredExpr dest
            actions := [⟨"bridge", some ("sofia/gateway/signalwire/" ++ ("+1" ++ raw10))⟩,
                        ⟨"playback", some ivrCannotBeCompleted⟩,
                        ⟨"hangup", some ""⟩] })
      else Except.ok none

end Mfc

namespace Mfc

/-! ### handleLocalCall -/

/-- The four caller-id `set` actions opening every local-call program. -/
def localBaseActions (callerIdName callerIdNumber : String) : List DialplanAction :=
  [⟨"set", some ("caller_id_name=" ++ callerIdName)⟩,
   ⟨"set", some ("caller_id_number=" ++ callerIdNumber)⟩,
   ⟨"set", some ("effective_caller_id_name=" ++ callerIdName)⟩,
   ⟨"set", some ("effective_caller_id_number=" ++ callerIdNumber)⟩]

/-- The caller-id determination of `handleLocalCall` (its lines 309-363):
the originating SIP client's local/display/user_id name and its user_id, or
the tenant default caller id, or the `Anonymous`/`0000000000` fallbacks. -/
def localCallerId (t : Tenant) (originatingCallerIdNumberFromFS : Option String) :
    String × String :=
  let defName := jsOrStr (t.profile.defaultCallerID.bind CallerId.name) "Anonymous"
  let defNumber := jsOrStr (t.profile.defaultCallerID.bind CallerId.number) "0000000000"
  match t.sip_clients.find? (fun client =>
      normalizeStringForComparison (some client.user_id)
        == normalizeStringForComparison originatingCallerIdNumberFromFS) with
  | some c =>
    let n := if truthy c.local_caller_id_name then jsToString c.local_caller_id_name
             else if truthy c.display_name then jsToString c.display_name
             else c.user_id
    (n, c.user_id)
  | none => (defName, defNumber)

/-- The announce-and-hangup tail shared by several local fallback branches. -/
def announceHangup : List DialplanAction :=
  [⟨"answer", some ""⟩, ⟨"playback", some ivrCannotBeCompleted⟩, ⟨"hangup", some ""⟩]

/-- The group-routing actions of `handleLocalCall` (its lines 389-413). -/
def groupRuleActions (g : Group) (domainName : String) : List DialplanAction :=
  let membersBridgeStrings := g.members.map (fun member => "user/" ++ member.user_id ++ "@" ++ domainName)
  let bridgeTarget := if g.type == "hunt" then jsJoin "|" membersBridgeStrings
                      else jsJoin "," membersBridgeStrings
  let bridgeTimeout := match g.timeout with
    | some n => if n == 0 then "" else "timeout=" ++ toString n ++ ","
    | none => ""
  [⟨"set", some "continue_on_fail=true"⟩,
   ⟨"set", some "hangup_after_bridge=true"⟩,
   ⟨"bridge", some (bridgeTimeout ++ bridgeTarget)⟩]
  ++ (if g.enable_voicemail && truthy g.voicemail_box_id then
        [⟨"answer", some ""⟩, ⟨"sleep", some "1000"⟩,
         ⟨"voicemail", some ("default " ++ domainName ++ " " ++ jsToString g.voicemail_box_id)⟩,
         ⟨"log", some ("INFO Sent call to group voicemail for " ++ g.name
            ++ ". Originate Disposition: $\x7boriginate_disposition\x7d")⟩,
         ⟨"hangup", some ""⟩]
      else
        match g.no_answer_action with
        | some a => if !(a.application == "") then [a] else announceHangup
        | none => announceHangup)

/-- The first stored dialplan entry with `condition_field == "destination_number"`
whose `condition_expression` regex-tests true on the destination; throws when
the JS `RegExp` engine throws on a stored pattern. -/
def findMatchingEntry (env : Env) (dest : String) :
    List DialplanEntry → Except Unit (Option DialplanEntry)
  | [] => Except.ok none
  | e :: rest =>
    if e.condition_field == "destination_number" then
      match env.regexTest e.condition_expression dest with
      | .error er => .error er
      | .ok true => .ok (some e)
      | .ok false => findMatchingEntry env dest rest
    else findMatchingEntry env dest rest

/-- The per-user program of the direct-SIP-client rule (its lines 441-462). -/
def sipClientActions (c : SipClient) (domainName : String) : List DialplanAction :=
  let u := c.user_id
  let callTimeout := jsOrNat c.no_answer_timeout 30
  [⟨"export", some ("dialed_extension=" ++ u)⟩,
   ⟨"log", some ("INFO Dialing extension " ++ u ++ " in domain " ++ domainName)⟩,
   ⟨"set", some ("user_exists=$\x7buser_exists(" ++ u ++ "@" ++ domainName ++ ")\x7d")⟩,
   ⟨"log", some ("INFO user_exists for " ++ u ++ "@" ++ domainName ++ ": $\x7buser_exists\x7d")⟩,
   ⟨"export", some ("sip_invite_domain=" ++ domainName)⟩,
   ⟨"export", some ("sip_invite_user=" ++ u)⟩,
   ⟨"bind_meta_app", some "1 b s execute_extension::dx XML features"⟩,
   ⟨"bind_meta_app", some "2 b s record_session::$\x7brecordings_dir\x7d/$\x7bcaller_id_number\x7d.$\x7bstrftime(%Y-%m-%d-%H-%M-%S)\x7d.wav"⟩,
   ⟨"bind_meta_app", some "3 b s execute_extension::cf XML features"⟩,
   ⟨"bind_meta_app", some "4 b s execute_extension::att_xfer XML features"⟩,
   ⟨"set", some "ringback=$\x7bus-ring\x7d"⟩,
   ⟨"set", some "transfer_ringback=$\x7bhold_music\x7d"⟩,
   ⟨"set", some ("call_timeout=" ++ toString callTimeout)⟩,
   ⟨"set", some "hangup_after_bridge=true"⟩,
   ⟨"set", some "continue_on_fail=true"⟩,
   ⟨"hash", some ("insert/$\x7bdomain_name\x7d-call_return/" ++ u ++ "/$\x7bcaller_id_number\x7d")⟩,
   ⟨"hash", some ("insert/$\x7bdomain_name\x7d-last_dial_ext/" ++ u ++ "/$\x7buuid\x7d")⟩,
   ⟨"set", some ("called_party_callgroup=$\x7buser_data(" ++ u ++ "@$\x7bdomain_name\x7d var callgroup)\x7d")⟩,
   ⟨"hash", some "insert/$\x7bdomain_name\x7d-last_dial_ext/$\x7bcalled_party_callgroup\x7d/$\x7buuid\x7d"⟩,
   ⟨"hash", some "insert/$\x7bdomain_name\x7d-last_dial_ext/global/$\x7buuid\x7d"⟩,
   ⟨"hash", some "insert/$\x7bdomain_name\x7d-last_dial/$\x7bcalled_party_callgroup\x7d/$\x7buuid\x7d"⟩,
   ⟨"bridge", some ("user/" ++ u ++ "@" ++ domainName)⟩]

/-- The voicemail-or-announce tail of the direct-SIP-client rule. -/
def sipClientTail (c : SipClient) (domainName : String) : List DialplanAction :=
  if c.enable_voicemail then
    [⟨"answer", some ""⟩, ⟨"sleep", some "1000"⟩,
     ⟨"voicemail", some ("default " ++ domainName ++ " " ++ c.user_id)⟩,
     ⟨"log", some ("INFO Sent call to voicemail for " ++ c.user_id
        ++ ". Originate Disposition: $\x7boriginate_disposition\x7d")⟩,
     ⟨"hangup", some ""⟩]
  else announceHangup

/-- The `/^\+?\d{10,15}$/` test of the external-dialing rule. -/
def isExternalNumber (s : String) : Bool :=
  let t := if strStartsWith s "+" then strDrop s 1 else s
  decide (10 ≤ t.length) && decide (t.length ≤ 15) && t.data.all isDigitB

/-- Replace every non-alphanumeric character by `_` (`replace(/[^a-zA-Z0-9]/g, "_")`). -/
def underscoreNonAlnum (s : String) : String :=
  ⟨s.data.map (fun c => if isAlnum c then c else '_')⟩

/-- `handleLocalCall`: system feature code, group, stored dialplan entry,
direct SIP client, external dialing, announce fallback — in that order.
Throws on an undefined destination or a null tenant (JS `TypeError`s) and
when a stored regex pattern makes `new RegExp` throw. -/
def handleLocalCall (env : Env) (body : Body) (tenant : Option Tenant)
    (domain : Option String) (effectiveDestination : Option String) :
    Except Unit ExtObj := do
  match effectiveDestination with
  | none => Except.error ()
  | some dest =>
    let dialedTargetIdentifier :=
      if dest.data.contains '@' then (⟨dest.data.takeWhile (fun c => !(c == '@'))⟩ : String)
      else dest
    let normalizedEffectiveDestination := normalizeStringForComparison (some dest)
    match tenant with
    | none => Except.error ()
    | some t =>
      let cid := localCallerId t body.callerCallerIdNumber
      let actions := localBaseActions cid.1 cid.2
      if dialedTargetIdentifier == "*98" then
        Except.ok
          { name := "check_voicemail"
            condition_field := "destination_number"
            expression := anchoredExpr dest
            actions := actions ++ [⟨"answer", none⟩, ⟨"sleep", some "1000"⟩,
              ⟨"voicemail", some ("check default " ++ t.domain_name)⟩, ⟨"hangup", some ""⟩] }
      else
        match t.groups.find? (fun group => group.name == dest) with
        | some matchedGroup =>
          Except.ok
            { name := "group_" ++ underscoreNonAlnum matchedGroup.name
              condition_field := "destination_number"
              expression := anchoredExpr dest
              actions := actions ++ groupRuleActions matchedGroup t.domain_name }
        | none => do
          let entry ← findMatchingEntry env dest t.dialplan_default
          match entry with
          | some matchedExplicitExtension =>
            Except.ok
              { name := matchedExplicitExtension.name
                condition_field := matchedExplicitExtension.condition_field
                expression := matchedExplicitExtension.condition_expression
                actions := actions ++ matchedExplicitExtension.actions }
          | none =>
            match t.sip_clients.find? (fun client =>
                normalizeStringForComparison (some client.user_id)
                  == normalizedEffectiveDestination) with
            | some sipClient =>
              Except.ok
                { name := "sip_client_" ++ underscoreNonAlnum sipClient.user_id
                  condition_field := "destination_number"
                  expression := anchoredExpr dest
                  actions := actions ++ sipClientActions sipClient t.domain_name
                    ++ sipClientTail sipClient t.domain_name }
            | none =>
              if isExternalNumber dest then
                Except.ok
                  { name := "outbound_" ++ ⟨dest.data.map (fun c => if isDigitB c then c else '_')⟩
                    condition_field := "destination_number"
                    expression := anchoredExpr dest
                    actions := actions
                      ++ [⟨"bridge", some ("sofia/gateway/signalwire/" ++ dest)⟩,
                          ⟨"hangup", some ""⟩] }
              else
                Except.ok
                  { name := "fallback_local_call"
                    condition_field := "destination_number"
                    expression := anchoredExpr dest
                    actions := actions ++ announceHangup }

end Mfc

namespace Mfc

/-! ### dialplanController.lookup -/

/-- The `no_tenant_found` announce program (lookup lines 542-551). -/
def noTenantFoundExt (effectiveDestination : Option String) : ExtObj :=
  { name := "no_tenant_found"
    condition_field := "destination_number"
    expression := anchoredExpr (jsToString effectiveDestination)
    actions := [⟨"answer", some ""⟩,
                ⟨"playback", some ivrCannotBeCompleted⟩,
                ⟨"hangup", some ""⟩] }

/-- The `public_no_did_found` program (lookup lines 560-569). -/
def publicNoDidExt (destination : Option String) : ExtObj :=
  { name := "public_no_did_found"
    condition_field := "destination_number"
    expression := anchoredExpr (jsToString destination)
    actions := [⟨"answer", some ""⟩,
                ⟨"playback", some ivrCannotBeCompleted⟩,
                ⟨"hangup", some "NORMAL_CLEARING"⟩] }

/-- The `block-interdomain-call` program (lookup lines 574-579). -/
def blockInterdomainExt (effectiveDestination : Option String) : ExtObj :=
  { name := "block-interdomain-call"
    condition_field := "destination_number"
    expression := anchoredExpr (jsToString effectiveDestination)
    actions := [⟨"hangup", some "CALL_REJECTED"⟩] }

/-- The domain hint of a request: `body.domain || body.variable_domain_name ||
body.variable_sip_to_host`. -/
def domainOf (body : Body) : Option String :=
  jsOr body.domain (jsOr body.variable_domain_name body.variable_sip_to_host)

/-- The requested context: `Caller-Context || variable_dialplan_context || "default"`. -/
def requestedContextOf (body : Body) : String :=
  jsOrStr body.callerContext (jsOrStr body.variable_dialplan_context "default")

/-- The destination: `Caller-Destination-Number || destination_number`. -/
def destinationOf (body : Body) : Option String :=
  jsOr body.callerDestinationNumber body.destination_number

/-- The effective destination: `variable_signalwire_actual_did || destination`. -/
def effectiveDestinationOf (body : Body) : Option String :=
  jsOr body.variable_signalwire_actual_did (destinationOf body)

/-- The trunk-side DID hint: `variable_sip_to_user || variable_sip_dest_user`. -/
def didHintOf (body : Body) : Option String :=
  jsOr body.variable_sip_to_user body.variable_sip_dest_user

/-- The body of the `try` block of `dialplanController.lookup`: classify the
request, produce `(finalContext, matchedExtension)`, and render.  Any thrown
exception surfaces as `Except.error`.  `finalContext` is initialized to the
requested context and — as in the source — never reassigned. -/
def lookupCore (env : Env) (body : Body) : Except Unit (String × Option ExtObj) := do
  let domain := domainOf body
  let requestedContext := requestedContextOf body
  let destination := destinationOf body
  let fromDomain := extractDomain body.callerChannelName
  let effectiveDestination := effectiveDestinationOf body
  let finalContext := requestedContext
  let tenant ← getTenantByDomain env domain
  if tenant.isNone && !(requestedContext == "public") then
    Except.ok (finalContext, some (noTenantFoundExt effectiveDestination))
  else if requestedContext == "public" then
    let actualDidFromTrunk := didHintOf body
    if truthy actualDidFromTrunk then do
      let m ← handleInboundCall env body domain (jsToString actualDidFromTrunk)
      Except.ok (finalContext, m)
    else
      Except.ok (finalContext, some (publicNoDidExt destination))
  else if requestedContext == "default" then do
    let m0 : Option ExtObj :=
      if truthy fromDomain && truthy domain
          && !(normalizeStringForComparison domain == normalizeStringForComparison fromDomain) then
        some (blockInterdomainExt effectiveDestination)
      else none
    let m1 ← match m0 with
      | some e => Except.ok (some e)
      | none => handleOutboundCall env body effectiveDestination
    let m2 ← match m1 with
      | some e => Except.ok (some e)
      | none => do
          let e ← handleLocalCall env body tenant domain effectiveDestination
          Except.ok (some e)
    let m3 := match m2 with
      | some e => some e
      | none => some (getNoMatchFallback effectiveDestination)
    Except.ok (finalContext, m3)
  else
    Except.ok (finalContext, some (getNoMatchFallback destination))

/-- The `try` block of `dialplanController.lookup` up to and including the
XML generation. -/
def lookupTry (env : Env) (body : Body) : Except Unit String :=
  match lookupCore env body with
  | .error e => .error e
  | .ok (finalContext, matchedExtension) =>
    .ok (generateDialplanXml finalContext matchedExtension body)

/-- `dialplanController.lookup`: the `try`/`catch` — on any thrown error the
response is `generateErrorXml(body["Caller-Destination-Number"])`. -/
def lookup (env : Env) (body : Body) : String :=
  match lookupTry env body with
  | .ok xmlResponse => xmlResponse
  | .error _ => generateErrorXml body.callerDestinationNumber

end Mfc

namespace Mfc

/-! ## controllers/directoryController.js -/

/-- The request body of the directory endpoint. -/
structure DirBody where
  domain : Option String
  sip_auth_username : Option String
  user : Option String
deriving DecidableEq

/-- The empty directory document returned for unknown users/domains. -/
def emptyDirDoc : String := "<document type=\"freeswitch/xml\"/>"

/-- The `<user>` snippet for a matched SIP client (directory lines 56-72). -/
def sipClientUserXml (c : SipClient) (t : Tenant) (domain : String) : String :=
  let voicemailPin := jsOrStr c.voicemail_pin "0000"
  let voicemailEmail := jsOrStr c.voicemail_email ("voicemail@" ++ domain)
  "\n                <user id=\"" ++ c.user_id ++ "\">\n"
  ++ "                    <params>\n"
  ++ "                        <param name=\"password\" value=\"" ++ c.password ++ "\"/>\n"
  ++ "                        "
  ++ (if c.enable_voicemail then
        "<param name=\"vm-password\" value=\"" ++ voicemailPin ++ "\"/>" else "")
  ++ "\n                    </params>\n"
  ++ "                    <variables>\n"
  ++ "                        <variable name=\"user_context\" value=\"default\"/>\n"
  ++ "                        <variable name=\"domain_name\" value=\"" ++ t.domain_name ++ "\"/>\n"
  ++ "                        <variable name=\"domain\" value=\"" ++ t.domain_name ++ "\"/>\n"
  ++ "                        <variable name=\"dial_string\" value=\"\x7bpresence_id="
  ++ c.user_id ++ "@" ++ t.domain_name ++ "\x7d\"/>\n"
  ++ "                        "
  ++ (if c.enable_voicemail && !(voicemailEmail == "") then
        "<variable name=\"email_address\" value=\"" ++ voicemailEmail ++ "\"/>" else "")
  ++ "\n                        <variable name=\"effective_caller_id_name\" value=\""
  ++ jsOrStr c.display_name c.user_id ++ "\"/>\n"
  ++ "                        <variable name=\"effective_caller_id_number\" value=\""
  ++ c.user_id ++ "\"/>\n"
  ++ "                    </variables>\n"
  ++ "                </user>\n            "

/-- The `<user>` snippet for a matched group voicemail box (directory lines 86-100). -/
def groupVmUserXml (g : Group) (t : Tenant) (userNumber domain : String) : String :=
  let voicemailPin := jsOrStr g.voicemail_pin "0000"
  let voicemailEmail := jsOrStr g.group_email ("voicemail@" ++ domain)
  "\n                    <user id=\"" ++ userNumber ++ "\" mailbox=\""
  ++ jsToString g.voicemail_box_id ++ "\">\n"
  ++ "                        <params>\n"
  ++ "                            <param name=\"password\" value=\"NO_SIP_AUTH\"/> <param name=\"vm-password\" value=\""
  ++ voicemailPin ++ "\"/>\n"
  ++ "                        </params>\n"
  ++ "                        <variables>\n"
  ++ "                            <variable name=\"user_context\" value=\"default\"/>\n"
  ++ "                            <variable name=\"domain_name\" value=\"" ++ t.domain_name ++ "\"/>\n"
  ++ "                            <variable name=\"domain\" value=\"" ++ t.domain_name ++ "\"/>\n"
  ++ "                            "
  ++ (if !(voicemailEmail == "") then
        "<variable name=\"email_address\" value=\"" ++ voicemailEmail ++ "\"/>" else "")
  ++ "\n                            <variable name=\"effective_caller_id_name\" value=\""
  ++ g.name ++ " Voicemail\"/>\n"
  ++ "                            <variable name=\"effective_caller_id_number\" value=\""
  ++ jsToString g.voicemail_box_id ++ "\"/>\n"
  ++ "                        </variables>\n"
  ++ "                    </user>\n                "

/-- The `<user>` snippet for a matched DID voicemail box (directory lines 118-132). -/
def didVmUserXml (d : Did) (t : Tenant) (userNumber domain : String) : String :=
  let vmBoxIdFromDid := strDrop d.failover_routing_target 10
  let voicemailPin := jsOrStr d.voicemail_pin "0000"
  let voicemailEmail := jsOrStr d.voicemail_email ("voicemail@" ++ domain)
  "\n                        <user id=\"" ++ userNumber ++ "\" mailbox=\"" ++ vmBoxIdFromDid ++ "\">\n"
  ++ "                            <params>\n"
  ++ "                                <param name=\"password\" value=\"NO_SIP_AUTH\"/> <param name=\"vm-password\" value=\""
  ++ voicemailPin ++ "\"/>\n"
  ++ "                            </params>\n"
  ++ "                            <variables>\n"
  ++ "                                <variable name=\"user_context\" value=\"default\"/>\n"
  ++ "                                <variable name=\"domain_name\" value=\"" ++ t.domain_name ++ "\"/>\n"
  ++ "                                <variable name=\"domain\" value=\"" ++ t.domain_name ++ "\"/>\n"
  ++ "                                "
  ++ (if !(voicemailEmail == "") then
        "<variable name=\"email_address\" value=\"" ++ voicemailEmail ++ "\"/>" else "")
  ++ "\n                                <variable name=\"effective_caller_id_name\" value=\""
  ++ d.did_number ++ " Voicemail\"/>\n"
  ++ "                                <variable name=\"effective_caller_id_number\" value=\""
  ++ d.did_number ++ "\"/>\n"
  ++ "                            </variables>\n"
  ++ "                        </user>\n                    "

/-- The full directory response document wrapping a `<user>` snippet
(directory lines 144-155). -/
def dirResponse (domain userXml : String) : String :=
  "\n            <document type=\"freeswitch/xml\">\n"
  ++ "                <section name=\"directory\">\n"
  ++ "                    <domain name=\"" ++ domain ++ "\">\n"
  ++ "                        <params>\n"
  ++ "                            <param name=\"dial-string\" value=\"\x7bpresence_id=$\x7bdialed_user\x7d@$\x7bdialed_domain\x7d\x7d$\x7bsofia_contact($\x7bdialed_user\x7d@$\x7bdialed_domain\x7d)\x7d\"/>\n"
  ++ "                        </params>\n"
  ++ "                        " ++ userXml ++ "\n"
  ++ "                    </domain>\n"
  ++ "                </section>\n"
  ++ "            </document>\n        "

/-- The DID-voicemail predicate of the directory resolver (its lines 105-110):
the DID number equals the looked-up identifier, the failover type is
`dialplan_extension`, and the failover target is truthy and starts with
`voicemail_`. -/
def didVmPred (userNumber : String) (did : Did) : Bool :=
  did.did_number == userNumber
    && did.failover_routing_type == "dialplan_extension"
    && !(did.failover_routing_target == "")
    && strStartsWith did.failover_routing_target "voicemail_"

/-- `directoryController.lookup`: SIP client, then group voicemail box, then
DID voicemail box; empty document when nothing matches or the tenant/params
are missing.  Throws when the store throws. -/
def directoryLookup (env : Env) (b : DirBody) : Except Unit String := do
  let domain := b.domain
  let userNumber := jsOr b.sip_auth_username b.user
  if !truthy domain || !truthy userNumber then Except.ok emptyDirDoc
  else do
    let tenant ← getTenantByDomain env domain
    match tenant with
    | none => Except.ok emptyDirDoc
    | some t =>
      let userXml :=
        match t.sip_clients.find? (fun client => client.user_id == jsToString userNumber) with
        | some sipClient => sipClientUserXml sipClient t (jsToString domain)
        | none =>
          match t.groups.find? (fun group =>
              group.enable_voicemail && group.voicemail_box_id == some (jsToString userNumber)) with
          | some groupVm => groupVmUserXml groupVm t (jsToString userNumber) (jsToString domain)
          | none =>
            match t.dids.find? (didVmPred (jsToString userNumber)) with
            | some didVm => didVmUserXml didVm t (jsToString userNumber) (jsToString domain)
            | none => ""
      if userXml == "" then Except.ok emptyDirDoc
      else Except.ok (dirResponse (jsToString domain) userXml)

end Mfc

namespace Mfc

/-! ## controllers/configurationController.js (src/unnamed/part_001, first draft) -/

/-- The "result not found" document for keys other than `sofia.conf`. -/
def configNotFoundDoc : String :=
  "<?xml version=\"1.0\" encoding=\"UTF-8\" standalone=\"no\"?>\n<document type=\"freeswitch/xml\">\n  <section name=\"result\">\n    <result status=\"not found\" />\n  </section>\n</document>"

/-- The document header of the `sofia.conf` response. -/
def configHeader : String :=
  "<?xml version=\"1.0\" encoding=\"UTF-8\" standalone=\"no\"?>\n<document type=\"freeswitch/xml\">\n  <section name=\"configuration\">\n    <configuration name=\"sofia.conf\" description=\"Sofia SIP Endpoint\" autoload_profiles=\"true\">\n      <profiles>"

/-- The static internal profile (part_001 lines 56-99, with the JS constants
`defaultInternalSipPort` etc. substituted as the template literal does),
split into five pieces so that proofs can evaluate the scanner piecewise. -/
def internalProfileXml1 : String := "\n        <profile name=\"internal\">\n          <aliases>\n          </aliases>\n          <gateways>\n          </gateways>\n          <domains>\n            <domain name=\"all\" alias=\"true\" parse=\"false\"/>\n          </domains>\n          <settings>\n            <param name=\"debug\" value=\"0\"/>\n            <param name=\"sip-trace\" value=\"no\"/>\n            <param name=\"sip-capture\" value=\"no\"/>\n            <param name=\"watchdog-enabled\" value=\"no\"/>\n         "

/-- Continuation of the internal profile. -/
def internalProfileXml2 : String := "   <param name=\"watchdog-step-timeout\" value=\"30000\"/>\n            <param name=\"watchdog-event-timeout\" value=\"30000\"/>\n            <param name=\"log-auth-failures\" value=\"false\"/>\n            <param name=\"forward-unsolicited-mwi-notify\" value=\"false\"/>\n            <param name=\"context\" value=\"default\"/>\n            <param name=\"rfc2833-pt\" value=\"101\"/>\n            <param name=\"sip-port\" value=\"5060\"/>\n            <param name=\"dialplan\" value=\"XM"

/-- Continuation of the internal profile. -/
def internalProfileXml3 : String := "L\"/>\n            <param name=\"dtmf-duration\" value=\"2000\"/>\n            <param name=\"inbound-codec-prefs\" value=\"PCMA,PCMU\"/>\n            <param name=\"outbound-codec-prefs\" value=\"PCMA,PCMU\"/>\n            <param name=\"rtp-timer-name\" value=\"soft\"/>\n            <param name=\"track-calls\" value=\"true\"/>\n            <param name=\"rtp-ip\" value=\"auto\"/>\n            <param name=\"sip-ip\" value=\"auto\"/>\n            <param name=\"hold-music\" value=\"$\x7bhold_m"

/-- Continuation of the internal profile. -/
def internalProfileXml4 : String := "usic\x7d\"/>\n            <param name=\"apply-nat-acl\" value=\"nat.auto\"/>\n            <param name=\"apply-inbound-acl\" value=\"domains\"/>\n            <param name=\"local-network-acl\" value=\"localnet.auto\"/>\n            <param name=\"record-path\" value=\"/usr/local/freeswitch/recordings\"/>\n            <param name=\"record-template\" value=\"$\x7bcaller_id_number\x7d.$\x7btarget_domain\x7d.$\x7bstrftime(%Y-%m-%d-%H-%M-%S)\x7d.wav\"/>\n            <param name=\"manage-presence\" value"

/-- Tail of the internal profile. -/
def internalProfileXml5 : String := "=\"true\"/>\n            <param name=\"presence-hosts\" value=\"$\x7bdomain\x7d,$\x7blocal_ip_v4\x7d\"/>\n            <param name=\"presence-privacy\" value=\"clear\"/>\n            <param name=\"inbound-codec-negotiation\" value=\"generous\"/>\n            <param name=\"tls\" value=\"false\"/>\n            <param name=\"tls-only\" value=\"false\"/>\n            <param name=\"tls-bind-params\" value=\"transport=tls\"/>\n          </settings>\n        </profile>"

/-- The static internal profile, assembled from the pieces above. -/
def internalProfileXml : String :=
  internalProfileXml1 ++ internalProfileXml2 ++ internalProfileXml3
    ++ internalProfileXml4 ++ internalProfileXml5

/-- The unconditional opening of the `signal` trunk profile (lines 103-108):
note that it leaves `<profile>` and `<gateways>` open. -/
def signalProfileHeader : String :=
  "\n        <profile name=\"signal\">\n          <aliases>\n            <alias name=\"external_sip_trunks\"/>\n          </aliases>\n          <gateways>"

/-- One `<gateway>` element of the populated pool (lines 113-153). -/
def gatewayXml (gateway : Gateway) : String :=
  "\n            <gateway name=\"" ++ gateway.name ++ "\">\n              "
  ++ (if truthy gateway.realm then "<param name=\"realm\" value=\"" ++ jsToString gateway.realm ++ "\"/>" else "")
  ++ "\n              "
  ++ (if truthy gateway.username then "<param name=\"username\" value=\"" ++ jsToString gateway.username ++ "\"/>" else "")
  ++ "\n              "
  ++ (if truthy gateway.password then "<param name=\"password\" value=\"" ++ jsToString gateway.password ++ "\"/>" else "")
  ++ "\n              "
  ++ (if truthy gateway.proxy then "<param name=\"proxy\" value=\"" ++ jsToString gateway.proxy ++ "\"/>" else "")
  ++ "\n              <param name=\"register\" value=\"" ++ (if gateway.register then "true" else "false") ++ "\"/>"
  ++ "\n              <param name=\"extension\" value=\"auto_to_user\"/>"
  ++ "\n              <param name=\"dtmf-type\" value=\"" ++ jsOrStr gateway.dtmf_type "rfc2833" ++ "\"/>"
  ++ "\n              <param name=\"caller-id-in-from\" value=\"false\"/>"
  ++ "\n              <param name=\"sip-options-ping-interval\" value=\"30\"/>"
  ++ "\n              <param name=\"sip-options-ping-tries\" value=\"3\"/>"
  ++ "\n              <param name=\"sip-options-ping-puts-gateway-on-fail\" value=\"true\"/>"
  ++ "\n              <param name=\"register-expires\" value=\"260\"/>"
  ++ "\n              <param name=\"expire-seconds\" value=\"260\"/>"
  ++ "\n              <param name=\"register-retry-seconds\" value=\"1\"/>"
  ++ "\n              <param name=\"ping\" value=\"true\"/>"
  ++ "\n              <param name=\"codec-prefs\" value=\"OPUS,G722,PCMU,PCMA,G729,VP8,H264\" />"
  ++ "\n                          <param name=\"sip-options-ping-interval\" value=\"30\"/>"
  ++ "\n            <param name=\"sip-options-ping-tries\" value=\"3\"/>"
  ++ "\n            <param name=\"register-expires\" value=\"30\"/>"
  ++ "\n            <param name=\"register-retry-seconds\" value=\"1\"/>"
  ++ "\n            <param name=\"rtp-hold-timeout-sec\" value=\"30\"/>"
  ++ "\n              <param name=\"inbound-codec-negotiation\" value=\"generous\" />"
  ++ "\n                <param name=\"inbound-late-negotiation\" value=\"true\" />"
  ++ "\n                <param name=\"manage-presence\" value=\"false\" />"
  ++ "\n                <param name=\"auth-calls\" value=\"false\" />"
  ++ "\n              "
  ++ (if truthy gateway.register_transport then
        "<param name=\"register-transport\" value=\"" ++ jsToString gateway.register_transport ++ "\"/>"
      else "")
  ++ "\n              "
  ++ (if truthy gateway.rtp_secure_media then
        "\n                            <param name=\"debug\" value=\"1\"/>\n            <param name=\"track-calls\" value=\"true\"/>\n            <param name=\"auth-calls\" value=\"false\"/>\n            <param name=\"inbound-codec-prefs\" value=\"OPUS,PCMU,PCMA\"/>\n            <param name=\"outbound-codec-prefs\" value=\"OPUS,PCMU,PCMA\"/>\n            <param name=\"rtp-timeout-sec\" value=\"30\"/>\n            <param name=\"session-expires\" value=\"120\"/>\n\n              <variables>\n                <variable name=\"rtp_secure_media\" value=\""
        ++ jsToString gateway.rtp_secure_media ++ "\"/>\n              </variables>"
      else "")
  ++ "\n            </gateway>"

/-- The settings block that closes the populated `signal` profile (lines 157-186). -/
def signalSettingsXml : String :=
  "\n          </gateways>\n          <settings>\n            <param name=\"debug\" value=\"1\"/>\n            <param name=\"user-agent\" value=\"FreeSWITCH-FS-Trunk\"/>\n            <param name=\"nonce-ttl\" value=\"60\"/>\n            <param name=\"auth-calls\" value=\"false\"/>\n            <param name=\"inbound-codec-prefs\" value=\"OPUS,PCMU,PCMA\"/>\n            <param name=\"outbound-codec-prefs\" value=\"OPUS,PCMU,PCMA\"/>\n           \n            <param name=\"session-expires\" value=\"120\"/>\n            <param name=\"sip-options-ping-interval\" value=\"30\"/>\n            <param name=\"sip-options-ping-tries\" value=\"3\"/>\n            <param name=\"sip-options-ping-puts-gateway-on-fail\" value=\"true\"/>\n            <param name=\"register-expires\" value=\"260\"/>\n            <param name=\"register-retry-seconds\" value=\"1\"/>\n            <param name=\"rtp-hold-timeout-sec\" value=\"30\"/>\n            <param name=\"context\" value=\"public\"/>\n            <param name=\"aggressive-nat-detection\" value=\"true\"/>\n            <param name=\"rtp-ip\" value=\"0.0.0.0\" />\n            <param name=\"sip-ip\" value=\"0.0.0.0\" />\n            <param name=\"ext-rtp-ip\" value=\"$$\x7bexternal_rtp_ip\x7d\" />\n            <param name=\"ext-sip-ip\" value=\"$$\x7bexternal_sip_ip\x7d\" />\n            <param name=\"apply-nat-acl\" value=\"nat.auto\"/>\n            <param name=\"manage-presence\" value=\"false\"/>\n            <param name=\"sip-port\" value=\"5080\"/>\n            <param name=\"challenge-realm\" value=\"$\x7bdomain\x7d\"/>\n            <param name=\"ping\" value=\"true\"/>\n          </settings>\n        </profile>"

/-- The standalone `external` profile emitted when the pool is empty
(lines 189-217) — note it opens its own `<profile>` element while the
`signal` profile header above is still unclosed.  Split into four pieces
so that proofs can evaluate the scanner piecewise. -/
def externalProfileXml1 : String := "\n        <profile name=\"external\">\n          <gateways></gateways>\n          <settings>\n            <param name=\"debug\" value=\"1\" />\n            <param name=\"dialplan\" value=\"signalwire\" />\n            <param name=\"context\" value=\"default\" />\n            <param name=\"rtp-timer-name\" value=\"soft\" />\n            <param name=\"rtp-ip\" value=\"10.0.0.2\" />\n            <param name=\"sip-ip\" value=\"10.0.0.2\" />\n            <param name=\"ext-rtp-ip\" value=\""

/-- Continuation of the standalone external profile. -/
def externalProfileXml2 : String := "67.217.242.171\" />\n            <param name=\"ext-sip-ip\" value=\"67.217.242.171\" />\n            <param name=\"rtp-timeout-sec\" value=\"300\" />\n            <param name=\"rtp-hold-timeout-sec\" value=\"1800\" />\n            <param name=\"sip-port\" value=\"6050\" />\n            <param name=\"tls\" value=\"True\" />\n            <param name=\"tls-only\" value=\"true\" />\n            <param name=\"tls-bind-params\" value=\"transport=tls\" />\n            <param name=\"tls-sip-"

/-- Continuation of the standalone external profile. -/
def externalProfileXml3 : String := "port\" value=\"6050\" />\n            <param name=\"tls-verify-date\" value=\"true\" />\n            <param name=\"tls-verify-policy\" value=\"none\" />\n            <param name=\"tls-verify-depth\" value=\"2\" />\n            <param name=\"codec-prefs\" value=\"OPUS,G722,PCMU,PCMA,VP8,H264\" />\n            <param name=\"inbound-codec-negotiation\" value=\"generous\" />\n            <param name=\"inbound-late-negotiation\" value=\"true\" />\n            <param name=\"manage-prese"

/-- Tail of the standalone external profile. -/
def externalProfileXml4 : String := "nce\" value=\"false\" />\n            <param name=\"auth-calls\" value=\"false\" />\n          </settings>\n        </profile>"

/-- The standalone `external` profile, assembled from the pieces above. -/
def externalProfileXml : String :=
  externalProfileXml1 ++ externalProfileXml2 ++ externalProfileXml3 ++ externalProfileXml4

/-- The closing footer of the `sofia.conf` response. -/
def configFooter : String :=
  "\n      </profiles>\n    </configuration>\n  </section>\n</document>"

/-- The catch-branch error document of the configuration controller. -/
def configErrorDoc : String :=
  "<document type=\"freeswitch/xml\"><section name=\"configuration\"><result status=\"error\"/></section></document>"

/-- `configurationController.lookup` (the first draft of part_001, the one
exported at its line 242): `sofia.conf` only; internal profile, then the
`signal` profile header, then either the enumerated gateways plus the signal
settings (non-empty pool) or the standalone `external` profile (empty pool). -/
def configurationLookup (env : Env) (key_value : Option String) : String :=
  if !(key_value == some "sofia.conf") then configNotFoundDoc
  else
    match getAllExternalGateways env with
    | .error _ => configErrorDoc
    | .ok globalGateways =>
      configHeader ++ internalProfileXml ++ signalProfileHeader
        ++ (if globalGateways.length > 0 then
              String.join (globalGateways.map gatewayXml) ++ signalSettingsXml
            else externalProfileXml)
        ++ configFooter

end Mfc

namespace Mfc

/-! ## A well-formedness checker for the emitted XML

A character-level scanner for the XML fragment these resolvers emit: it
checks tag/attribute syntax (attribute values are double-quoted and may not
contain a raw `"` or `<`), tag balance, and counts the `context`,
`extension` and `profile` elements needed by the claims.  Character-reference
validity of `&` is deliberately not checked. -/

/-- Element counters maintained by the scanner: whether the position is
inside a `context` element, how many `context` elements were opened, how
many `extension` elements were opened inside/outside a `context`, and how
many `profile` elements were opened. -/
structure Counts where
  inCtx : Bool
  ctxOpens : Nat
  extInside : Nat
  extOutside : Nat
  profOpens : Nat
deriving DecidableEq, BEq, Repr

/-- Counter update on an opening tag. -/
def cntOpenTag (k : Counts) (n : String) : Counts :=
  if n == "context" then { k with inCtx := true, ctxOpens := k.ctxOpens + 1 }
  else if n == "extension" then
    (if k.inCtx then { k with extInside := k.extInside + 1 }
     else { k with extOutside := k.extOutside + 1 })
  else if n == "profile" then { k with profOpens := k.profOpens + 1 }
  else k

/-- Counter update on a self-closing tag (opens and closes the element). -/
def cntSelfTag (k : Counts) (n : String) : Counts :=
  if n == "context" then { k with ctxOpens := k.ctxOpens + 1 }
  else if n == "extension" then
    (if k.inCtx then { k with extInside := k.extInside + 1 }
     else { k with extOutside := k.extOutside + 1 })
  else if n == "profile" then { k with profOpens := k.profOpens + 1 }
  else k

/-- Counter update on a closing tag. -/
def cntCloseTag (k : Counts) (n : String) : Counts :=
  if n == "context" then { k with inCtx := false } else k

/-- Scanner modes. -/
inductive Mode where
  | text
  | tagStart
  | pi
  | piQ
  | openName (acc : List Char)
  | inTag (tag : String)
  | attrName (tag : String)
  | attrEq (tag : String)
  | attrVal (tag : String)
  | slash (tag : String)
  | closeName (acc : List Char)
  | bad
deriving DecidableEq, BEq, Repr

/-- Scanner state: mode, stack of open elements, element counters. -/
structure ScanSt where
  mode : Mode
  stack : List String
  cnt : Counts
deriving DecidableEq, BEq, Repr

/-- Characters allowed in element/attribute names (lenient XML name class). -/
def isNameChar (c : Char) : Bool :=
  isAlnum c || c == '-' || c == '_' || c == ':'

/-- Whitespace inside tags. -/
def isWsX (c : Char) : Bool :=
  c == ' ' || c == '\n' || c == '\t' || c == '\r'

/-- ASCII letter, the allowed first character of a name. -/
def isAlphaB (c : Char) : Bool :=
  ('a' ≤ c && c ≤ 'z') || ('A' ≤ c && c ≤ 'Z')

/-- One scanner transition. -/
def step (st : ScanSt) (c : Char) : ScanSt :=
  match st.mode with
  | .bad => st
  | .text => if c == '<' then { st with mode := .tagStart } else st
  | .tagStart =>
    if c == '?' then { st with mode := .pi }
    else if c == '/' then { st with mode := .closeName [] }
    else if isAlphaB c then { st with mode := .openName [c] }
    else { st with mode := .bad }
  | .pi => if c == '?' then { st with mode := .piQ } else st
  | .piQ =>
    if c == '>' then { st with mode := .text }
    else if c == '?' then st
    else { st with mode := .pi }
  | .openName acc =>
    if isNameChar c then { st with mode := .openName (c :: acc) }
    else if isWsX c then { st with mode := .inTag ⟨acc.reverse⟩ }
    else if c == '>' then
      { mode := .text, stack := (⟨acc.reverse⟩ : String) :: st.stack
        cnt := cntOpenTag st.cnt ⟨acc.reverse⟩ }
    else if c == '/' then { st with mode := .slash ⟨acc.reverse⟩ }
    else { st with mode := .bad }
  | .inTag tag =>
    if isWsX c then st
    else if c == '>' then
      { mode := .text, stack := tag :: st.stack, cnt := cntOpenTag st.cnt tag }
    else if c == '/' then { st with mode := .slash tag }
    else if isAlphaB c then { st with mode := .attrName tag }
    else { st with mode := .bad }
  | .attrName tag =>
    if isNameChar c then st
    else if c == '=' then { st with mode := .attrEq tag }
    else { st with mode := .bad }
  | .attrEq tag =>
    if c == '"' then { st with mode := .attrVal tag }
    else { st with mode := .bad }
  | .attrVal tag =>
    if c == '"' then { st with mode := .inTag tag }
    else if c == '<' then { st with mode := .bad }
    else st
  | .slash tag =>
    if c == '>' then { st with mode := .text, cnt := cntSelfTag st.cnt tag }
    else { st with mode := .bad }
  | .closeName acc =>
    if isNameChar c then { st with mode := .closeName (c :: acc) }
    else if c == '>' then
      match st.stack with
      | top :: rest =>
        if top == (⟨acc.reverse⟩ : String) then
          { mode := .text, stack := rest, cnt := cntCloseTag st.cnt ⟨acc.reverse⟩ }
        else { st with mode := .bad }
      | [] => { st with mode := .bad }
    else { st with mode := .bad }

/-- Run the scanner over a character list. -/
def scanL (st : ScanSt) : List Char → ScanSt
  | [] => st
  | c :: rest => scanL (step st c) rest

/-- The initial scanner state. -/
def initSt : ScanSt := ⟨.text, [], ⟨false, 0, 0, 0, 0⟩⟩

/-- Run the scanner over a string. -/
def scanS (st : ScanSt) (s : String) : ScanSt := scanL st s.data

/-- Tag balance and attribute quoting hold over the whole string. -/
def xmlStructOk (s : String) : Bool :=
  let fin := scanS initSt s
  fin.mode == Mode.text && fin.stack.isEmpty

/-- The claim-level well-formedness predicate: the scanner accepts the whole
string with an empty stack and saw exactly one `context` element holding
exactly one `extension` element. -/
def xmlOneExtOneCtx (s : String) : Bool :=
  let fin := scanS initSt s
  fin.mode == Mode.text && fin.stack.isEmpty
    && fin.cnt.ctxOpens == 1 && fin.cnt.extInside == 1 && fin.cnt.extOutside == 0

/-- `pat` is a prefix of the list. -/
def isPrefixOfL : List Char → List Char → Bool
  | [], _ => true
  | _ :: _, [] => false
  | a :: as, b :: bs => a == b && isPrefixOfL as bs

/-- The number of (possibly overlapping) occurrences of `pat`, accumulated. -/
def countSubstrL (pat : List Char) (acc : Nat) : List Char → Nat
  | [] => acc
  | c :: rest => countSubstrL pat (acc + (if isPrefixOfL pat (c :: rest) then 1 else 0)) rest

/-- The number of occurrences of the substring `pat` in `s`. -/
def countSubstr (pat s : String) : Nat := countSubstrL pat.data 0 s.data

end Mfc

namespace Mfc

/-! ## Concrete instances used by the claim proofs -/

/-- A request body with no keys set. -/
def emptyBody : Body :=
  ⟨none, none, none, none, none, none, none, none, none, none, none, none, none⟩

/-- A base environment: empty store and pool, complete CNAM credentials,
a fetch that succeeds with a null body, a literal-equality regex engine. -/
def baseEnv : Env :=
  { store := [], byDomainErr := false, byDidErr := false
    gateways := [], gwErr := false
    swCfg := ⟨some "proj", some "tok", some "space"⟩
    fetch := fun _ => .ok { ok := true, jsonData := none }
    regexTest := fun p s => .ok (p == s) }

/-- An environment with an empty global gateway pool (for the configuration
resolver). -/
def envC8 : Env :=
  { store := [], byDomainErr := false, byDidErr := false
    gateways := [], gwErr := false
    swCfg := ⟨none, none, none⟩
    fetch := fun _ => .error ()
    regexTest := fun _ _ => .error () }

/-- A tenant of domain `b.example` used by the inter-domain-guard claim. -/
def tenantC6 : Tenant :=
  { domain_name := "a.example"
    profile := { defaultCallerID := none }
    sip_clients := []
    dialplan_default := []
    groups := []
    dids := [] }

/-- An environment holding only `tenantC6`. -/
def envC6 : Env := { baseEnv with store := [tenantC6] }

/-- A `default`-context request from a caller whose channel name carries the
foreign domain `b.example`, to the tenant domain `a.example`. -/
def bodyC6 : Body :=
  { emptyBody with
    domain := some "a.example"
    callerContext := some "default"
    callerDestinationNumber := some "1001"
    callerChannelName := some "sofia/internal/1001@b.example" }

/-- A tenant of domain `c.example` with no DIDs (for the guard-skipping claim). -/
def tenantC10 : Tenant :=
  { domain_name := "c.example"
    profile := { defaultCallerID := none }
    sip_clients := []
    dialplan_default := []
    groups := []
    dids := [] }

/-- An environment whose store holds only `tenantC10`. -/
def envC10b : Env := { baseEnv with store := [tenantC10] }

/-- A `public`-context request with a trunk DID hint for a number nobody owns,
whose domain hint is `c.example`. -/
def bodyC10 : Body :=
  { emptyBody with
    domain := some "c.example"
    callerContext := some "public"
    callerDestinationNumber := some "5551234567"
    variable_sip_to_user := some "5551234567"
    callerCallerIdNumber := some "1112223333" }

/-- A tenant of domain `a.example` owning the active DID `+15125551234`
routed to extension `1001`. -/
def tenantC2 : Tenant :=
  { domain_name := "a.example"
    profile := { defaultCallerID := none }
    sip_clients := [{ user_id := "1001", password := "pw", enable_voicemail := true
                      voicemail_pin := none, voicemail_email := none
                      local_caller_id_name := none, display_name := some "Alice"
                      no_answer_timeout := some 25 }]
    dialplan_default := []
    groups := []
    dids := [{ did_number := "+15125551234", routing_type := "extension"
               routing_target := "1001", failover_routing_type := "none"
               failover_routing_target := "", active := true
               voicemail_pin := none, voicemail_email := none }] }

/-- An environment holding `tenantC2` whose CNAM `fetch` always fails
(network error / timeout). -/
def envC2 : Env := { baseEnv with store := [tenantC2], fetch := fun _ => .error () }

/-- An inbound `public`-context request for `tenantC2`'s DID, with a caller
number present. -/
def bodyC2 : Body :=
  { emptyBody with
    domain := some "a.example"
    callerContext := some "public"
    callerDestinationNumber := some "+15125551234"
    variable_sip_to_user := some "+15125551234"
    callerCallerIdNumber := some "5551112222" }

/-- A `public`-context request with a trunk DID hint that no tenant owns. -/
def bodyC7 : Body :=
  { emptyBody with
    callerContext := some "public"
    callerDestinationNumber := some "5551234567"
    variable_sip_to_user := some "5551234567"
    callerCallerIdNumber := some "1112223333" }

/-- A tenant whose only DID is `5125551234` with failover target
`voicemail_100` of type `dialplan_extension` (no SIP clients, no groups). -/
def tenantC9 : Tenant :=
  { domain_name := "a.example"
    profile := { defaultCallerID := none }
    sip_clients := []
    dialplan_default := []
    groups := []
    dids := [{ did_number := "5125551234", routing_type := "extension"
               routing_target := "1001", failover_routing_type := "dialplan_extension"
               failover_routing_target := "voicemail_100", active := true
               voicemail_pin := none, voicemail_email := none }] }

/-- An environment holding only `tenantC9`. -/
def envC9 : Env := { baseEnv with store := [tenantC9] }

/-- A directory lookup for the mailbox id `100` (which no DID *number*
equals, though `voicemail_100` is a failover target). -/
def dirBodyC9 : DirBody := ⟨some "a.example", none, some "100"⟩

/-- A directory lookup for the DID number `5125551234` itself. -/
def dirBodyC9b : DirBody := ⟨some "a.example", none, some "5125551234"⟩

/-- An environment holding `tenantC2` with a working (null-record) CNAM
transport. -/
def envC3 : Env := { baseEnv with store := [tenantC2] }

/-- An inbound `public`-context request for `tenantC2`'s DID (working CNAM). -/
def bodyC3 : Body :=
  { emptyBody with
    domain := some "a.example"
    callerContext := some "public"
    callerDestinationNumber := some "+15125551234"
    variable_sip_to_user := some "+15125551234"
    callerCallerIdNumber := some "5551112222" }

/-- The extension program the resolver computes for `bodyC3` in `envC3`. -/
def extC3 : ExtObj :=
  match lookupCore envC3 bodyC3 with
  | .ok (_, some m) => m
  | _ => getNoMatchFallback none


/-! ### Concrete instances for claim C5 -/

/-- A stored tenant dialplan entry whose condition expression is the bare,
unanchored literal `123`. -/
def storedEntryC5 : DialplanEntry :=
  { name := "night_route"
    condition_field := "destination_number"
    condition_expression := "123"
    actions := [⟨"transfer", some "2000 XML default"⟩] }

/-- A tenant of domain `a.example` whose only routing rule is `storedEntryC5`. -/
def tenantC5 : Tenant :=
  { domain_name := "a.example"
    profile := { defaultCallerID := none }
    sip_clients := []
    dialplan_default := [storedEntryC5]
    groups := []
    dids := [] }

/-- An environment holding only `tenantC5` (literal-equality regex engine). -/
def envC5 : Env := { baseEnv with store := [tenantC5] }

/-- A `default`-context request to destination `123` on `tenantC5`'s domain. -/
def bodyC5 : Body :=
  { emptyBody with
    domain := some "a.example"
    callerContext := some "default"
    callerDestinationNumber := some "123" }

/-- The extension object the resolver produces for `bodyC5`: the stored
entry's fields verbatim, behind the caller-id preamble. -/
def storedExtC5 : ExtObj :=
  { name := "night_route"
    condition_field := "destination_number"
    expression := "123"
    actions := localBaseActions "Anonymous" "0000000000" ++ storedEntryC5.actions }


/-! ### Definitions for claim C4 (attribute safety and scanner states) -/

/-- A character that may sit inside a double-quoted attribute value:
anything but a raw `"` or `<`. -/
def attrSafeChar (c : Char) : Bool := !(c == '"') && !(c == '<')

/-- Every character of the string is attribute-safe. -/
def attrSafeB (s : String) : Bool := s.data.all attrSafeChar

/-- A character that is not a raw ampersand. -/
def ampFreeChar (c : Char) : Bool := !(c == '&')

/-- The string holds no raw `&` at all. -/
def ampFree (s : String) : Bool := s.data.all ampFreeChar

/-- The list begins with the tail of one of the five predefined entity
references (`lt; gt; amp; apos; quot;`), i.e. what must follow a `&`. -/
def entityAt (l : List Char) : Bool :=
  isPrefixOfL "lt;".data l || isPrefixOfL "gt;".data l || isPrefixOfL "amp;".data l
    || isPrefixOfL "apos;".data l || isPrefixOfL "quot;".data l

/-- Every `&` of the list starts one of the five predefined entity
references. -/
def ampOkL : List Char → Bool
  | [] => true
  | c :: rest => (if c == '&' then entityAt rest else true) && ampOkL rest

/-- Every `&` of the string starts a predefined entity reference. -/
def ampOk (s : String) : Bool := ampOkL s.data

/-- A character that may be emitted verbatim into an attribute value of a
well-formed document: not `"`, `<` or `&`. -/
def xmlSafeChar (c : Char) : Bool := attrSafeChar c && ampFreeChar c

/-- Every character of the string is XML-safe. -/
def attrXmlSafeB (s : String) : Bool := s.data.all xmlSafeChar

/-- The verbatim-emitted fields of the extension the resolver would render
are XML-safe (vacuously true on the error path). -/
def okPathSafe (env : Env) (body : Body) : Bool :=
  match lookupCore env body with
  | .error _ => true
  | .ok (_, m) =>
    attrXmlSafeB (selectExt m body).expression
      && (selectExt m body).actions.all (fun a => attrXmlSafeB (a.data.getD ""))

/-- Scanner state just after `<context name="`. -/
def stCtxVal : ScanSt := ⟨Mode.attrVal "context", ["section", "document"], ⟨false, 0, 0, 0, 0⟩⟩

/-- Scanner state just after the `context` element opened. -/
def stCtxOpen : ScanSt := ⟨Mode.text, ["context", "section", "document"], ⟨true, 1, 0, 0, 0⟩⟩

/-- Scanner state inside the `extension` name attribute. -/
def stExtVal : ScanSt :=
  ⟨Mode.attrVal "extension", ["context", "section", "document"], ⟨true, 1, 0, 0, 0⟩⟩

/-- Scanner state just after the `extension` element opened. -/
def stExtOpen : ScanSt :=
  ⟨Mode.text, ["extension", "context", "section", "document"], ⟨true, 1, 1, 0, 0⟩⟩

/-- Scanner state inside an attribute value of the `condition` tag. -/
def stCondVal : ScanSt :=
  ⟨Mode.attrVal "condition", ["extension", "context", "section", "document"], ⟨true, 1, 1, 0, 0⟩⟩

/-- Scanner state in the action list, inside the open `condition` element. -/
def stActText : ScanSt :=
  ⟨Mode.text, ["condition", "extension", "context", "section", "document"], ⟨true, 1, 1, 0, 0⟩⟩

/-- Scanner state inside an attribute value of an `action` tag. -/
def stActVal : ScanSt :=
  ⟨Mode.attrVal "action", ["condition", "extension", "context", "section", "document"],
   ⟨true, 1, 1, 0, 0⟩⟩

/-- Scanner state after `</condition></extension>`, back inside `context`. -/
def stInCtx : ScanSt := ⟨Mode.text, ["context", "section", "document"], ⟨true, 1, 1, 0, 0⟩⟩

/-- Final scanner state of a one-extension-in-one-context document. -/
def stFinal : ScanSt := ⟨Mode.text, [], ⟨false, 1, 1, 0, 0⟩⟩

/-- A `default`-context request whose destination carries a raw double
quote. -/
def bodyC4 : Body :=
  { emptyBody with
    domain := some "nope.example"
    callerContext := some "default"
    callerDestinationNumber := some "a\"b" }

end Mfc

namespace Mfc

/-! ## Proofs: scanner fold lemmas -/

/-- The scanner is a fold: scanning an appended list continues from the
state reached on the first part. -/
theorem scanL_append (a b : List Char) (st : ScanSt) :
    scanL st (a ++ b) = scanL (scanL st a) b := by
  induction a generalizing st with
  | nil => rfl
  | cons c rest ih => simpa [scanL] using ih (step st c)

/-- `scanL_append`, on strings. -/
theorem scanS_append (st : ScanSt) (a b : String) :
    scanS st (a ++ b) = scanS (scanS st a) b := by
  simp [scanS, String.data_append, scanL_append]

end Mfc


namespace Mfc

/-! ## Proofs: the configuration resolver on the empty pool (C8) -/

/-- C8: on the `sofia.conf` key with an **empty** gateway pool the emitted
document opens three `<profile>` elements (internal, the never-closed
`signal` header, and the standalone `external` profile) and its tags do not
balance — the document is not well-formed, contradicting "exactly two
profiles ... in a well-formed document".  The failure point is the final
`</profiles>`, which arrives while `<gateways>` of the `signal` profile is
still open. -/
theorem c8_empty_pool_eval :
    (scanS initSt (configurationLookup envC8 (some "sofia.conf"))).cnt.profOpens = 3
    ∧ xmlStructOk (configurationLookup envC8 (some "sofia.conf")) = false := by
  have h0 : configurationLookup envC8 (some "sofia.conf")
      = configHeader ++ (internalProfileXml1 ++ internalProfileXml2 ++ internalProfileXml3
          ++ internalProfileXml4 ++ internalProfileXml5) ++ signalProfileHeader
        ++ (externalProfileXml1 ++ externalProfileXml2 ++ externalProfileXml3
          ++ externalProfileXml4) ++ configFooter := rfl
  have h1 : scanS initSt configHeader
      = ⟨.text, ["profiles", "configuration", "section", "document"], ⟨false, 0, 0, 0, 0⟩⟩ := by decide
  have h2 : scanS ⟨.text, ["profiles", "configuration", "section", "document"], ⟨false, 0, 0, 0, 0⟩⟩ internalProfileXml1
      = ⟨.text, ["settings", "profile", "profiles", "configuration", "section", "document"], ⟨false, 0, 0, 0, 1⟩⟩ := by decide
  have h3 : scanS ⟨.text, ["settings", "profile", "profiles", "configuration", "section", "document"], ⟨false, 0, 0, 0, 1⟩⟩ internalProfileXml2
      = ⟨.attrVal "param", ["settings", "profile", "profiles", "configuration", "section", "document"], ⟨false, 0, 0, 0, 1⟩⟩ := by decide
  have h4 : scanS ⟨.attrVal "param", ["settings", "profile", "profiles", "configuration", "section", "document"], ⟨false, 0, 0, 0, 1⟩⟩ internalProfileXml3
      = ⟨.attrVal "param", ["settings", "profile", "profiles", "configuration", "section", "document"], ⟨false, 0, 0, 0, 1⟩⟩ := by decide
  have h5 : scanS ⟨.attrVal "param", ["settings", "profile", "profiles", "configuration", "section", "document"], ⟨false, 0, 0, 0, 1⟩⟩ internalProfileXml4
      = ⟨.attrName "param", ["settings", "profile", "profiles", "configuration", "section", "document"], ⟨false, 0, 0, 0, 1⟩⟩ := by decide
  have h6 : scanS ⟨.attrName "param", ["settings", "profile", "profiles", "configuration", "section", "document"], ⟨false, 0, 0, 0, 1⟩⟩ internalProfileXml5
      = ⟨.text, ["profiles", "configuration", "section", "document"], ⟨false, 0, 0, 0, 1⟩⟩ := by decide
  have h7 : scanS ⟨.text, ["profiles", "configuration", "section", "document"], ⟨false, 0, 0, 0, 1⟩⟩ signalProfileHeader
      = ⟨.text, ["gateways", "profile", "profiles", "configuration", "section", "document"], ⟨false, 0, 0, 0, 2⟩⟩ := by decide
  have h8 : scanS ⟨.text, ["gateways", "profile", "profiles", "configuration", "section", "document"], ⟨false, 0, 0, 0, 2⟩⟩ externalProfileXml1
      = ⟨.attrVal "param", ["settings", "profile", "gateways", "profile", "profiles", "configuration", "section", "document"], ⟨false, 0, 0, 0, 3⟩⟩ := by decide
  have h9 : scanS ⟨.attrVal "param", ["settings", "profile", "gateways", "profile", "profiles", "configuration", "section", "document"], ⟨false, 0, 0, 0, 3⟩⟩ externalProfileXml2
      = ⟨.attrVal "param", ["settings", "profile", "gateways", "profile", "profiles", "configuration", "section", "document"], ⟨false, 0, 0, 0, 3⟩⟩ := by decide
  have h10 : scanS ⟨.attrVal "param", ["settings", "profile", "gateways", "profile", "profiles", "configuration", "section", "document"], ⟨false, 0, 0, 0, 3⟩⟩ externalProfileXml3
      = ⟨.attrVal "param", ["settings", "profile", "gateways", "profile", "profiles", "configuration", "section", "document"], ⟨false, 0, 0, 0, 3⟩⟩ := by decide
  have h11 : scanS ⟨.attrVal "param", ["settings", "profile", "gateways", "profile", "profiles", "configuration", "section", "document"], ⟨false, 0, 0, 0, 3⟩⟩ externalProfileXml4
      = ⟨.text, ["gateways", "profile", "profiles", "configuration", "section", "document"], ⟨false, 0, 0, 0, 3⟩⟩ := by decide
  have h12 : scanS ⟨.text, ["gateways", "profile", "profiles", "configuration", "section", "document"], ⟨false, 0, 0, 0, 3⟩⟩ configFooter
      = ⟨.bad, ["gateways", "profile", "profiles", "configuration", "section", "document"], ⟨false, 0, 0, 0, 3⟩⟩ := by decide
  have hfin : scanS initSt (configurationLookup envC8 (some "sofia.conf"))
      = ⟨.bad, ["gateways", "profile", "profiles", "configuration", "section", "document"], ⟨false, 0, 0, 0, 3⟩⟩ := by
    rw [h0]
    simp only [scanS_append]
    rw [h1, h2, h3, h4, h5, h6, h7, h8, h9, h10, h11, h12]
  refine ⟨?_, ?_⟩
  · rw [hfin]
  · simp only [xmlStructOk, hfin]
    rfl

end Mfc

namespace Mfc

/-! ## Proofs: basic facts about the embedded utilities -/

/-- `findAtDomain` never captures an empty run. -/
theorem findAtDomain_ne_empty (l : List Char) (x : String) :
    findAtDomain l = some x → x ≠ "" := by
  induction l with
  | nil => intro h; simp [findAtDomain] at h
  | cons c rest ih =>
    intro h
    simp only [findAtDomain] at h
    split at h
    · split at h
      · exact ih h
      · rename_i hrun
        cases h
        intro hx
        apply hrun
        simp only [List.isEmpty_iff]
        simpa using congrArg String.data hx
    · exact ih h

/-- A domain extracted from a channel name is never the empty string. -/
theorem extractDomain_ne_empty (s : Option String) (x : String)
    (h : extractDomain s = some x) : x ≠ "" := by
  unfold extractDomain at h
  split at h
  · exact absurd h (by simp)
  · exact findAtDomain_ne_empty _ _ h

/-- A successful by-domain lookup forces a truthy domain argument. -/
theorem getTenantByDomain_ok_some {env : Env} {d : Option String} {t : Tenant}
    (h : getTenantByDomain env d = .ok (some t)) : truthy d = true := by
  unfold getTenantByDomain at h
  by_cases hd : truthy d = true
  · exact hd
  · simp [hd] at h

end Mfc

namespace Mfc

/-! ## Proofs: claim C6 — the inter-domain guard -/

/-- C6: in the `default` context, when a tenant exists for the request
domain, the channel-name-derived caller domain is present, and the two
domains differ after normalization, the emitted program is the
`block-interdomain-call` extension whose only action is
`hangup(CALL_REJECTED)`.  The conclusion holds for every gateway pool,
store content and regex engine, so no outbound or local routing can
influence it. -/
theorem c6_interdomain_hangup (env : Env) (body : Body) (t : Tenant) (f : String)
    (hctx : requestedContextOf body = "default")
    (hten : getTenantByDomain env (domainOf body) = .ok (some t))
    (hfrom : extractDomain body.callerChannelName = some f)
    (hne : normalizeStringForComparison (domainOf body) ≠ normalizeStringForComparison (some f)) :
    lookup env body
      = generateDialplanXml "default" (some (blockInterdomainExt (effectiveDestinationOf body))) body
    ∧ (blockInterdomainExt (effectiveDestinationOf body)).actions
      = [⟨"hangup", some "CALL_REJECTED"⟩] := by
  have hd : truthy (domainOf body) = true := getTenantByDomain_ok_some hten
  have hf : f ≠ "" := extractDomain_ne_empty _ _ hfrom
  have hcore : lookupCore env body
      = .ok ("default", some (blockInterdomainExt (effectiveDestinationOf body))) := by
    simp only [lookupCore, hctx, hten, hfrom, bind, Except.bind, Option.isNone,
      Bool.false_and, hd,
      show truthy (some f) = true from by simp [truthy, hf],
      show (("default" : String) == "public") = false from by decide,
      show (("default" : String) == "default") = true from by decide,
      show (f == "") = false from by simp [hf],
      show (normalizeStringForComparison (domainOf body)
        == normalizeStringForComparison (some f)) = false from by simp [hne]]
    simp
  have htry : lookupTry env body
      = .ok (generateDialplanXml "default"
          (some (blockInterdomainExt (effectiveDestinationOf body))) body) := by
    unfold lookupTry
    rw [hcore]
  refine ⟨?_, rfl⟩
  unfold lookup
  rw [htry]

/-- Witness for C6 at a concrete inter-domain request. -/
theorem c6_interdomain_hangup_witness :
    requestedContextOf bodyC6 = "default"
    ∧ (lookup envC6 bodyC6
        = generateDialplanXml "default"
            (some (blockInterdomainExt (effectiveDestinationOf bodyC6))) bodyC6
      ∧ (blockInterdomainExt (effectiveDestinationOf bodyC6)).actions
        = [⟨"hangup", some "CALL_REJECTED"⟩]) :=
  ⟨by decide,
   c6_interdomain_hangup envC6 bodyC6 tenantC6 "b.example"
     (by decide) (by decide) (by decide) (by decide)⟩

end Mfc

namespace Mfc

/-! ## Proofs: the public-context path (shared lemmas, C10, C2) -/

/-- `handleInboundCall` reads the environment only through the CNAM
credentials, `fetch`, and the by-DID store query — and ignores its `domain`
argument entirely. -/
theorem handleInboundCall_congr (env env2 : Env) (body : Body) (dom dom2 : Option String) (d : String)
    (hsw : env2.swCfg = env.swCfg) (hf : env2.fetch = env.fetch)
    (hq : getTenantAndDidByDidNumber env2 d = getTenantAndDidByDidNumber env d) :
    handleInboundCall env2 body dom2 d = handleInboundCall env body dom d := by
  simp only [handleInboundCall, hsw, hf, hq]

/-- In the `public` context with a truthy trunk DID hint, once the by-domain
lookup returns (with any result), the response is exactly the rendering of
`handleInboundCall`'s result in the requested context. -/
theorem lookupTry_public (env : Env) (body : Body) (r : Option Tenant)
    (hctx : requestedContextOf body = "public")
    (hhint : truthy (didHintOf body) = true)
    (h1 : getTenantByDomain env (domainOf body) = .ok r) :
    lookupTry env body
      = (handleInboundCall env body (domainOf body) (jsToString (didHintOf body))).map
          (fun m => generateDialplanXml "public" m body) := by
  simp only [lookupTry, lookupCore, hctx, h1, hhint, bind, Except.bind,
    show (("public" : String) == "public") = true from by decide,
    Bool.not_true, Bool.and_false, Bool.false_eq_true, if_false, if_true]
  cases hres : handleInboundCall env body (domainOf body) (jsToString (didHintOf body)) <;>
    simp [hres, Except.map]

/-- C10: in the `public` context with a trunk DID hint, the missing-tenant
guard is skipped — the response is the rendering of inbound-DID handling
even when the domain hint matches no tenant — and the outcome is unchanged
under any other store whose by-DID query agrees, regardless of what the
by-domain lookup returns. -/
theorem c10_public_guard_skipped (env env2 : Env) (body : Body) (r1 r2 : Option Tenant)
    (hctx : requestedContextOf body = "public")
    (hhint : truthy (didHintOf body) = true)
    (h1 : getTenantByDomain env (domainOf body) = .ok r1)
    (h2 : getTenantByDomain env2 (domainOf body) = .ok r2)
    (hsw : env2.swCfg = env.swCfg) (hf : env2.fetch = env.fetch)
    (hq : getTenantAndDidByDidNumber env2 (jsToString (didHintOf body))
        = getTenantAndDidByDidNumber env (jsToString (didHintOf body))) :
    lookupTry env body
      = (handleInboundCall env body (domainOf body) (jsToString (didHintOf body))).map
          (fun m => generateDialplanXml "public" m body)
    ∧ lookup env2 body = lookup env body := by
  refine ⟨lookupTry_public env body r1 hctx hhint h1, ?_⟩
  have e1 := lookupTry_public env body r1 hctx hhint h1
  have e2 := lookupTry_public env2 body r2 hctx hhint h2
  have hcong : handleInboundCall env2 body (domainOf body) (jsToString (didHintOf body))
      = handleInboundCall env body (domainOf body) (jsToString (didHintOf body)) :=
    handleInboundCall_congr env env2 body _ _ _ hsw hf hq
  unfold lookup
  rw [e1, e2, hcong]

/-- Witness for C10: an empty store and a store holding an unrelated tenant
for the request's domain hint produce the same response. -/
theorem c10_public_guard_skipped_witness :
    getTenantByDomain baseEnv (domainOf bodyC10) = .ok none
    ∧ getTenantByDomain envC10b (domainOf bodyC10) = .ok (some tenantC10)
    ∧ (lookupTry baseEnv bodyC10
        = (handleInboundCall baseEnv bodyC10 (domainOf bodyC10)
            (jsToString (didHintOf bodyC10))).map
            (fun m => generateDialplanXml "public" m bodyC10)
      ∧ lookup envC10b bodyC10 = lookup baseEnv bodyC10) :=
  ⟨by decide, by decide,
   c10_public_guard_skipped baseEnv envC10b bodyC10 none (some tenantC10)
     (by decide) (by decide) (by decide) (by decide) rfl rfl (by decide)⟩

end Mfc

namespace Mfc

/-! ## Proofs: claim C2 — CNAM failures -/

/-- A thrown CNAM lookup makes `handleInboundCall` throw. -/
theorem handleInboundCall_cnam_error (env : Env) (body : Body) (dom : Option String)
    (d : String) (e : Unit)
    (hcnam : lookupCnam env.swCfg env.fetch body.callerCallerIdNumber = .error e) :
    handleInboundCall env body dom d = .error e := by
  simp only [handleInboundCall, hcnam, bind, Except.bind]

/-- C2 (amended): in the `public` context with a trunk DID hint, when the
CNAM lookup throws (missing or empty caller number, missing credentials,
non-2xx response, or network error), the exception propagates out of
inbound handling and the response is the application-error program instead
of the normal routing result. -/
theorem c2_cnam_error_yields_error_program (env : Env) (body : Body) (e : Unit)
    (hctx : requestedContextOf body = "public")
    (hhint : truthy (didHintOf body) = true)
    (hcnam : lookupCnam env.swCfg env.fetch body.callerCallerIdNumber = .error e) :
    lookup env body = generateErrorXml body.callerDestinationNumber := by
  cases hten : getTenantByDomain env (domainOf body) with
  | error e' =>
    unfold lookup lookupTry
    simp only [lookupCore, hten, bind, Except.bind]
  | ok r =>
    have htry := lookupTry_public env body r hctx hhint hten
    rw [handleInboundCall_cnam_error env body _ _ e hcnam] at htry
    unfold lookup
    rw [htry]
    rfl

/-- C2 counterexample: with a failing CNAM transport, a routable inbound
request (the tenant owns the DID and the target extension exists) makes
`lookupCnam` raise and the resolver answers with the application-error
program — refuting "failures resolve to null and never raise / never
produce the error program". -/
theorem c2_counterexample :
    lookupCnam envC2.swCfg envC2.fetch bodyC2.callerCallerIdNumber = .error ()
    ∧ lookup envC2 bodyC2 = generateErrorXml bodyC2.callerDestinationNumber := by
  refine ⟨by decide, ?_⟩
  rfl

/-- Witness for the amended C2 at the concrete failing-CNAM request. -/
theorem c2_cnam_error_yields_error_program_witness :
    requestedContextOf bodyC2 = "public"
    ∧ truthy (didHintOf bodyC2) = true
    ∧ lookup envC2 bodyC2 = generateErrorXml bodyC2.callerDestinationNumber :=
  ⟨by decide, by decide,
   c2_cnam_error_yields_error_program envC2 bodyC2 () (by decide) (by decide) (by decide)⟩

end Mfc

namespace Mfc

/-! ## Proofs: claim C7 — inbound DID owned by no tenant -/

/-- When the CNAM step succeeds (and any returned record carries a `cnam`
sub-object) but the by-DID query finds no owning tenant, inbound handling
returns `null`. -/
theorem handleInboundCall_notFound (env : Env) (body : Body) (dom : Option String)
    (d : String) (cd : Option CnamData)
    (hcnam : lookupCnam env.swCfg env.fetch body.callerCallerIdNumber = .ok cd)
    (hqual : ∀ x, cd = some x → x.cnam.isSome = true)
    (hwrap : getTenantAndDidByDidNumber env d = .ok .notFound) :
    handleInboundCall env body dom d = .ok none := by
  cases cd with
  | none =>
    simp only [handleInboundCall, hcnam, bind, Except.bind, hwrap]
  | some x =>
    cases hx : x.cnam with
    | none => have := hqual x rfl; rw [hx] at this; simp at this
    | some box =>
      simp only [handleInboundCall, hcnam, bind, Except.bind, hx, hwrap]

/-- C7 (amended): in the `public` context, when no tenant owns the incoming
DID (only active DIDs are considered by the query), inbound handling yields
`null` and the generator substitutes its defensive
`xml_generation_error_fallback` extension — `answer` then
`hangup(NORMAL_CLEARING)`, with no announcement — emitted in the requested
context.  The resolver does not crash, but it does not emit the invalid-entry
no-match program either. -/
theorem c7_unknown_did_defensive_fallback (env : Env) (body : Body)
    (cd : Option CnamData) (r : Option Tenant)
    (hctx : requestedContextOf body = "public")
    (hhint : truthy (didHintOf body) = true)
    (hten : getTenantByDomain env (domainOf body) = .ok r)
    (hcnam : lookupCnam env.swCfg env.fetch body.callerCallerIdNumber = .ok cd)
    (hqual : ∀ x, cd = some x → x.cnam.isSome = true)
    (hwrap : getTenantAndDidByDidNumber env (jsToString (didHintOf body)) = .ok .notFound) :
    lookup env body = generateDialplanXml "public" none body
    ∧ selectExt none body = xmlGenFallbackExt body
    ∧ (xmlGenFallbackExt body).actions
      = [⟨"answer", none⟩, ⟨"hangup", some "NORMAL_CLEARING"⟩] := by
  have htry := lookupTry_public env body r hctx hhint hten
  rw [handleInboundCall_notFound env body _ _ cd hcnam hqual hwrap] at htry
  refine ⟨?_, rfl, rfl⟩
  unfold lookup
  rw [htry]
  rfl

/-- C7 counterexample: at a concrete unknown-DID inbound request the
response is the defensive fallback document — its actions are not the
no-match fallback's (`answer`, `playback` invalid-entry, `hangup`), and the
document contains no `playback` at all. -/
theorem c7_counterexample :
    lookup baseEnv bodyC7 = generateDialplanXml "public" none bodyC7
    ∧ countSubstr "playback" (lookup baseEnv bodyC7) = 0
    ∧ (selectExt none bodyC7).actions ≠ (getNoMatchFallback (some "5551234567")).actions := by
  refine ⟨rfl, by decide, by decide⟩

/-- Witness for the amended C7 at the concrete unknown-DID request. -/
theorem c7_unknown_did_defensive_fallback_witness :
    requestedContextOf bodyC7 = "public"
    ∧ (lookup baseEnv bodyC7 = generateDialplanXml "public" none bodyC7
      ∧ selectExt none bodyC7 = xmlGenFallbackExt bodyC7
      ∧ (xmlGenFallbackExt bodyC7).actions
        = [⟨"answer", none⟩, ⟨"hangup", some "NORMAL_CLEARING"⟩]) :=
  ⟨by decide,
   c7_unknown_did_defensive_fallback baseEnv bodyC7 none none
     (by decide) (by decide) (by decide) (by decide)
     (fun x hx => by cases hx) (by decide)⟩

end Mfc

namespace Mfc

/-! ## Proofs: claim C9 — directory DID-voicemail matching -/

/-- Two strings with different head characters differ. -/
theorem ne_of_head_ne (s t : String) (c1 c2 : Char) (h1 : s.data.head? = some c1)
    (h2 : t.data.head? = some c2) (hne : c1 ≠ c2) : s ≠ t := by
  intro h
  rw [h, h2] at h1
  cases h1
  exact hne rfl

/-- The wrapped directory response starts with a newline. -/
theorem dirResponse_head (dm ux : String) : (dirResponse dm ux).data.head? = some '\n' := by
  unfold dirResponse
  simp only [String.data_append, List.head?_append]
  rfl

/-- The DID voicemail pseudo-user snippet starts with a newline. -/
theorem didVmUserXml_head (d : Did) (t : Tenant) (u dm : String) :
    (didVmUserXml d t u dm).data.head? = some '\n' := by
  unfold didVmUserXml
  simp only [String.data_append, List.head?_append]
  rfl

/-- A wrapped directory response is never the empty directory document. -/
theorem dirResponse_ne_emptyDirDoc (dm ux : String) : dirResponse dm ux ≠ emptyDirDoc :=
  ne_of_head_ne _ _ '\n' '<' (dirResponse_head dm ux) (by decide) (by decide)

/-- The DID voicemail pseudo-user snippet is never the empty string. -/
theorem didVmUserXml_ne_empty (d : Did) (t : Tenant) (u dm : String) :
    (didVmUserXml d t u dm == "") = false := by
  have : didVmUserXml d t u dm ≠ "" :=
    fun h => by
      have := didVmUserXml_head d t u dm
      rw [h] at this
      cases this
  simpa using this

/-- C9 (amended): past the SIP-client and group-voicemail branches, a DID
voicemail pseudo-user is produced exactly when some DID satisfies the
resolver's predicate — `did_number` equal to the looked-up identifier,
failover type `dialplan_extension`, and a truthy failover target starting
with `voicemail_`.  A match on the mailbox id alone (the `<id>` inside
`voicemail_<id>`) does not produce a pseudo-user: when no DID *number*
matches, the response is the empty directory document. -/
theorem c9_did_vm_matches_number_only (env : Env) (b : DirBody) (t : Tenant)
    (hd : truthy b.domain = true)
    (hu : truthy (jsOr b.sip_auth_username b.user) = true)
    (hten : getTenantByDomain env b.domain = .ok (some t))
    (hsip : t.sip_clients.find? (fun client =>
        client.user_id == jsToString (jsOr b.sip_auth_username b.user)) = none)
    (hgrp : t.groups.find? (fun group =>
        group.enable_voicemail
          && group.voicemail_box_id == some (jsToString (jsOr b.sip_auth_username b.user))) = none) :
    (t.dids.find? (didVmPred (jsToString (jsOr b.sip_auth_username b.user))) = none →
      directoryLookup env b = .ok emptyDirDoc)
    ∧ (∀ d, t.dids.find? (didVmPred (jsToString (jsOr b.sip_auth_username b.user))) = some d →
      directoryLookup env b
        = .ok (dirResponse (jsToString b.domain)
            (didVmUserXml d t (jsToString (jsOr b.sip_auth_username b.user)) (jsToString b.domain)))
      ∧ directoryLookup env b ≠ .ok emptyDirDoc) := by
  constructor
  · intro hfind
    simp only [directoryLookup, hd, hu, hten, hsip, hgrp, hfind, bind, Except.bind,
      Bool.not_true, Bool.false_or, Bool.or_false, if_false, if_true]
    simp
  · intro d hfind
    have hne := didVmUserXml_ne_empty d t (jsToString (jsOr b.sip_auth_username b.user))
      (jsToString b.domain)
    have heq : directoryLookup env b
        = .ok (dirResponse (jsToString b.domain)
            (didVmUserXml d t (jsToString (jsOr b.sip_auth_username b.user)) (jsToString b.domain))) := by
      simp only [directoryLookup, hd, hu, hten, hsip, hgrp, hfind, bind, Except.bind,
        Bool.not_true, Bool.false_or, Bool.or_false, if_false, if_true, hne]
      simp
    refine ⟨heq, ?_⟩
    rw [heq]
    intro hcontra
    have := dirResponse_ne_emptyDirDoc (jsToString b.domain)
      (didVmUserXml d t (jsToString (jsOr b.sip_auth_username b.user)) (jsToString b.domain))
    exact this (by injection hcontra)

/-- C9 counterexample: the looked-up identifier `100` equals the mailbox id
of `voicemail_100` (a DID failover target of the tenant), yet the resolver
returns the empty directory document with no `<user` element — refuting
"whenever either the DID number or the mailbox id matches". -/
theorem c9_counterexample :
    directoryLookup envC9 dirBodyC9 = .ok emptyDirDoc
    ∧ (tenantC9.dids.any (fun d => d.failover_routing_target
        == "voicemail_" ++ jsToString (jsOr dirBodyC9.sip_auth_username dirBodyC9.user))) = true
    ∧ countSubstr "<user" emptyDirDoc = 0 := by
  refine ⟨by decide, by decide, by decide⟩

/-- Witness for the amended C9: the mailbox-id lookup yields the empty
document at the concrete tenant. -/
theorem c9_did_vm_matches_number_only_witness :
    truthy dirBodyC9.domain = true
    ∧ directoryLookup envC9 dirBodyC9 = .ok emptyDirDoc :=
  ⟨by decide,
   (c9_did_vm_matches_number_only envC9 dirBodyC9 tenantC9
      (by decide) (by decide) (by decide) (by decide) (by decide)).1 (by decide)⟩

end Mfc

namespace Mfc

/-! ## Proofs: claim C3 — the public context is not rewritten to default -/

/-- C3 (evaluating the code at the failing input): a `public`-context call
with a trunk DID hint that resolves to a tenant DID routed to an existing
extension.  `finalContext` is initialized to the requested context and never
reassigned, so the document declares `<context name="public">` — not
`default` as the specification states — even though the emitted extension is
the inbound-DID program (`did_inbound_+15125551234`). -/
theorem c3_public_context_not_transferred :
    (∃ rest, lookup envC3 bodyC3 = dialplanDocPrefix "public" ++ rest)
    ∧ dialplanDocPrefix "public"
      = "<?xml version=\"1.0\" encoding=\"UTF-8\" standalone=\"no\"?>\n<document type=\"freeswitch/xml\"><section name=\"dialplan\"><context name=\"public\">"
    ∧ (∃ m, lookupCore envC3 bodyC3 = .ok ("public", some m)
        ∧ m.name = "did_inbound_+15125551234") := by
  refine ⟨?_, by decide, ⟨extC3, rfl, rfl⟩⟩
  have h0 : lookup envC3 bodyC3 = generateDialplanXml "public" (some extC3) bodyC3 := rfl
  rw [h0]
  refine ⟨extensionXml (selectExt (some extC3) bodyC3) ++ "</context></section></document>", ?_⟩
  unfold generateDialplanXml
  rw [String.append_assoc]

end Mfc

namespace Mfc

/-! ## Proofs: claim C5 — anchoring of the emitted condition expression -/

theorem anchoredB_wrap (x : String) : anchoredB ("^" ++ x ++ "$") = true := by
  simp only [anchoredB, String.data_append, Bool.and_eq_true, beq_iff_eq]
  refine ⟨rfl, ?_⟩
  rw [show ("^" : String).data ++ x.data ++ ("$" : String).data
      = (("^" : String).data ++ x.data) ++ ['$'] from by simp]
  exact List.getLast?_concat _

theorem anchoredB_anchoredExpr (s : String) : anchoredB (anchoredExpr s) = true :=
  anchoredB_wrap (escapeRegExp s)

theorem anchoredB_fallback (b : Body) : anchoredB (xmlGenFallbackExt b).expression = true := by
  unfold xmlGenFallbackExt
  split <;> exact anchoredB_wrap _

theorem handleOutboundCall_anchored (env : Env) (b : Body) (ed : Option String) (e : ExtObj)
    (h : handleOutboundCall env b ed = .ok (some e)) : anchoredB e.expression = true := by
  unfold handleOutboundCall at h
  split at h
  · cases h
  · split at h
    · cases h
    · simp only [bind, Except.bind] at h
      split at h
      · cases h
      · split at h
        · injection h with h1
          injection h1 with h2
          subst h2
          exact anchoredB_anchoredExpr _
        · simp at h

theorem handleInboundCall_anchored (env : Env) (b : Body) (dom : Option String)
    (d : String) (e : ExtObj)
    (h : handleInboundCall env b dom d = .ok (some e)) : anchoredB e.expression = true := by
  unfold handleInboundCall at h
  simp only [bind, Except.bind] at h
  repeat' split at h
  all_goals try cases h
  all_goals exact anchoredB_anchoredExpr _

theorem findMatchingEntry_mem (env : Env) (dest : String) (l : List DialplanEntry)
    (entry : DialplanEntry)
    (h : findMatchingEntry env dest l = .ok (some entry)) : entry ∈ l := by
  induction l with
  | nil => simp [findMatchingEntry] at h
  | cons x rest ih =>
    unfold findMatchingEntry at h
    split at h
    · split at h
      · cases h
      · injection h with h1
        injection h1 with h2
        subst h2
        exact List.mem_cons_self _ _
      · exact List.mem_cons_of_mem _ (ih h)
    · exact List.mem_cons_of_mem _ (ih h)

theorem handleLocalCall_expr (env : Env) (b : Body) (t : Option Tenant)
    (dom : Option String) (ed : Option String) (e : ExtObj)
    (h : handleLocalCall env b t dom ed = .ok e) :
    anchoredB e.expression = true
    ∨ ∃ tt, t = some tt ∧ ∃ entry ∈ tt.dialplan_default,
        e.expression = entry.condition_expression := by
  unfold handleLocalCall at h
  simp only [bind, Except.bind] at h
  repeat' split at h
  all_goals try cases h
  all_goals try exact Or.inl (anchoredB_anchoredExpr _)
  all_goals exact Or.inr ⟨_, rfl, _, findMatchingEntry_mem _ _ _ _ (by assumption), rfl⟩

theorem of_ite_some {α : Type} {c : Prop} [Decidable c] {a e : α}
    (h : (if c then some a else none) = some e) : e = a := by
  split at h
  · injection h with h1
    exact h1.symm
  · cases h

theorem selectExt_some (e : ExtObj) (b : Body) :
    selectExt (some e) b
      = if (e.name == "" || e.condition_field == "" || e.expression == "") = true then
          xmlGenFallbackExt b
        else e := rfl

theorem selectExt_anchored_of (m : Option ExtObj) (b : Body)
    (hm : ∀ e, m = some e → anchoredB e.expression = true) :
    anchoredB (selectExt m b).expression = true := by
  cases m with
  | none => exact anchoredB_fallback b
  | some e =>
    rw [selectExt_some]
    split
    · exact anchoredB_fallback b
    · exact hm e rfl

theorem selectExt_keep_or_fallback (e : ExtObj) (b : Body) :
    selectExt (some e) b = e ∨ selectExt (some e) b = xmlGenFallbackExt b := by
  rw [selectExt_some]
  split
  · exact Or.inr rfl
  · exact Or.inl rfl

theorem getTenantByDomain_mem (env : Env) (d : Option String) (t : Tenant)
    (h : getTenantByDomain env d = .ok (some t)) : t ∈ env.store := by
  unfold getTenantByDomain at h
  split at h
  · cases h
  · split at h
    · cases h
    · injection h with h1
      exact List.mem_of_find?_eq_some h1

theorem c5_expression_anchored_or_stored (env : Env) (body : Body) (c : String) (m : Option ExtObj)
    (h : lookupCore env body = .ok (c, m)) :
    lookupTry env body = .ok (dialplanDocPrefix c ++ extensionXml (selectExt m body)
        ++ "</context></section></document>")
    ∧ (anchoredB (selectExt m body).expression = true
       ∨ ∃ t ∈ env.store, ∃ entry ∈ t.dialplan_default,
           (selectExt m body).expression = entry.condition_expression) := by
  refine ⟨by unfold lookupTry; rw [h]; rfl, ?_⟩
  unfold lookupCore at h
  simp only [bind, Except.bind] at h
  repeat' split at h
  all_goals try cases h
  all_goals try exact Or.inl (selectExt_anchored_of _ _
    (fun e2 he2 => by cases he2; exact anchoredB_anchoredExpr _))
  all_goals try (rename_i he0
                 have hb := of_ite_some he0
                 subst hb
                 exact Or.inl (selectExt_anchored_of _ _
                   (fun e2 he2 => by cases he2; exact anchoredB_anchoredExpr _)))
  all_goals try (refine Or.inl (selectExt_anchored_of _ _ (fun e2 he2 => ?_))
                 cases he2
                 first
                 | exact handleInboundCall_anchored _ _ _ _ _ (by assumption)
                 | exact handleOutboundCall_anchored _ _ _ _ (by assumption))
  rename_i e0 hLC
  rcases handleLocalCall_expr _ _ _ _ _ _ hLC with ha | ⟨tt, htt, entry, hmem, hexpr⟩
  · exact Or.inl (selectExt_anchored_of _ _ (fun e2 he2 => by cases he2; exact ha))
  · have hg0 : getTenantByDomain env (domainOf body) = Except.ok (some tt) := by
      rw [← htt]; assumption
    rcases selectExt_keep_or_fallback e0 body with hk | hf
    · exact Or.inr ⟨tt, getTenantByDomain_mem _ _ _ hg0, entry, hmem, by rw [hk, hexpr]⟩
    · exact Or.inl (by rw [hf]; exact anchoredB_fallback body)
/-- C5 counterexample: on `bodyC5` the resolver renders the stored entry
verbatim, so the emitted condition expression is `123` — it neither begins
with `^` nor ends with `$`. -/
theorem c5_counterexample :
    lookupCore envC5 bodyC5 = .ok ("default", some storedExtC5)
    ∧ lookup envC5 bodyC5
        = dialplanDocPrefix "default" ++ extensionXml storedExtC5
            ++ "</context></section></document>"
    ∧ storedExtC5.expression = "123"
    ∧ anchoredB storedExtC5.expression = false := by
  refine ⟨by decide, ?_, rfl, by decide⟩
  show lookup envC5 bodyC5
      = dialplanDocPrefix "default" ++ extensionXml (selectExt (some storedExtC5) bodyC5)
          ++ "</context></section></document>"
  rfl

theorem c5_expression_anchored_or_stored_witness :
    lookupCore envC5 bodyC5 = Except.ok ("default", some storedExtC5)
    ∧ (lookupTry envC5 bodyC5 = .ok (dialplanDocPrefix "default"
          ++ extensionXml (selectExt (some storedExtC5) bodyC5)
          ++ "</context></section></document>")
       ∧ (anchoredB (selectExt (some storedExtC5) bodyC5).expression = true
          ∨ ∃ t ∈ envC5.store, ∃ entry ∈ t.dialplan_default,
              (selectExt (some storedExtC5) bodyC5).expression = entry.condition_expression)) :=
  ⟨by decide, c5_expression_anchored_or_stored envC5 bodyC5 "default" (some storedExtC5) (by decide)⟩

end Mfc

namespace Mfc

/-! ## Proofs: claim C1 — the resolver never throws; errors become the error program -/

/-- C1: for every environment and request body, `dialplanController.lookup`
returns a string: either the successfully generated dialplan document, or —
whenever any internal step throws (store failure, CNAM failure, regex
failure) — exactly the application-error document
`generateErrorXml(body["Caller-Destination-Number"])`. -/
theorem c1_total_and_error_program (env : Env) (body : Body) :
    (∃ s, lookupTry env body = Except.ok s ∧ lookup env body = s)
    ∨ (lookupTry env body = Except.error ()
       ∧ lookup env body = generateErrorXml body.callerDestinationNumber) := by
  unfold lookup
  cases h : lookupTry env body with
  | ok s => exact Or.inl ⟨s, rfl, rfl⟩
  | error e => cases e; exact Or.inr ⟨rfl, rfl⟩

end Mfc

namespace Mfc

/-! ## Proofs: claim C4 — well-formedness of the emitted document -/

theorem step_attrVal_safe (st : ScanSt) (t : String) (c : Char)
    (hm : st.mode = Mode.attrVal t) (hc : attrSafeChar c = true) :
    step st c = st := by
  have h1 : (c == '"') = false := by
    cases hq : c == '"'
    · rfl
    · simp [attrSafeChar, hq] at hc
  have h2 : (c == '<') = false := by
    cases hq : c == '<'
    · rfl
    · simp [attrSafeChar, hq] at hc
  unfold step
  rw [hm]
  simp [h1, h2]

theorem scanL_attrVal_safe (l : List Char) (st : ScanSt) (t : String)
    (hm : st.mode = Mode.attrVal t) (h : l.all attrSafeChar = true) :
    scanL st l = st := by
  induction l with
  | nil => rfl
  | cons c rest ih =>
    simp only [List.all_cons, Bool.and_eq_true] at h
    unfold scanL
    rw [step_attrVal_safe st t c hm h.1]
    exact ih h.2

theorem scanS_attrVal_safe (st : ScanSt) (t : String) (s : String)
    (hm : st.mode = Mode.attrVal t) (h : attrSafeB s = true) :
    scanS st s = st :=
  scanL_attrVal_safe s.data st t hm h

theorem escAttrChar_safe (c : Char) : (escAttrChar c).all attrSafeChar = true := by
  unfold escAttrChar
  repeat' split
  all_goals first
  | decide
  | simp_all [attrSafeChar]

theorem attrSafeB_escapeAttribute (s : String) : attrSafeB (escapeAttribute s) = true := by
  show ((s.data.map escAttrChar).flatten).all attrSafeChar = true
  simp only [List.all_eq_true]
  intro c hc
  simp only [List.mem_flatten, List.mem_map] at hc
  obtain ⟨l, ⟨c0, hc0, rfl⟩, hcl⟩ := hc
  exact List.all_eq_true.mp (escAttrChar_safe c0) c hcl

theorem scanS_foldl (l : List String) (st : ScanSt) (acc : String) :
    scanS st (l.foldl (fun r s => r ++ s) acc)
      = l.foldl (fun r s => scanS r s) (scanS st acc) := by
  induction l generalizing acc st with
  | nil => rfl
  | cons a rest ih =>
    simp only [List.foldl_cons]
    rw [ih, scanS_append]

theorem scan_actionXml (a : DialplanAction) (h : attrSafeB (a.data.getD "") = true) :
    scanS stActText (actionXml a) = stActText := by
  unfold actionXml
  repeat rw [scanS_append]
  rw [show scanS stActText "<action application=\"" = stActVal from by decide]
  rw [scanS_attrVal_safe stActVal "action" _ rfl (attrSafeB_escapeAttribute a.application)]
  rw [show scanS stActVal "\" data=\"" = stActVal from by decide]
  rw [scanS_attrVal_safe stActVal "action" _ rfl h]
  decide

theorem scan_actions_fold (l : List DialplanAction)
    (h : ∀ a ∈ l, attrSafeB (a.data.getD "") = true) :
    (l.map actionXml).foldl (fun r s => scanS r s) stActText = stActText := by
  induction l with
  | nil => rfl
  | cons a rest ih =>
    simp only [List.map_cons, List.foldl_cons]
    rw [scan_actionXml a (h a (List.mem_cons_self a rest))]
    exact ih (fun b hb => h b (List.mem_cons_of_mem a hb))

theorem scan_actions_join (l : List DialplanAction)
    (h : ∀ a ∈ l, attrSafeB (a.data.getD "") = true) :
    scanS stActText (String.join (l.map actionXml)) = stActText := by
  rw [show String.join (l.map actionXml)
        = (l.map actionXml).foldl (fun r s => r ++ s) "" from rfl]
  rw [scanS_foldl]
  exact scan_actions_fold l h

theorem scan_docPrefix (c : String) : scanS initSt (dialplanDocPrefix c) = stCtxOpen := by
  unfold dialplanDocPrefix
  repeat rw [scanS_append]
  rw [show scanS initSt "<?xml version=\"1.0\" encoding=\"UTF-8\" standalone=\"no\"?>\n"
        = initSt from by decide]
  rw [show scanS initSt
        "<document type=\"freeswitch/xml\"><section name=\"dialplan\"><context name=\""
        = stCtxVal from by decide]
  rw [scanS_attrVal_safe stCtxVal "context" _ rfl (attrSafeB_escapeAttribute c)]
  decide

theorem scan_extensionXml (e : ExtObj)
    (hexpr : attrSafeB e.expression = true)
    (hdata : ∀ a ∈ e.actions, attrSafeB (a.data.getD "") = true) :
    scanS stCtxOpen (extensionXml e) = stInCtx := by
  unfold extensionXml
  repeat rw [scanS_append]
  rw [show scanS stCtxOpen "<extension name=\"" = stExtVal from by decide]
  rw [scanS_attrVal_safe stExtVal "extension" _ rfl (attrSafeB_escapeAttribute e.name)]
  rw [show scanS stExtVal "\">" = stExtOpen from by decide]
  rw [show scanS stExtOpen "<condition field=\"" = stCondVal from by decide]
  rw [scanS_attrVal_safe stCondVal "condition" _ rfl (attrSafeB_escapeAttribute e.condition_field)]
  rw [show scanS stCondVal "\" expression=\"" = stCondVal from by decide]
  rw [scanS_attrVal_safe stCondVal "condition" _ rfl hexpr]
  rw [show scanS stCondVal "\">" = stActText from by decide]
  rw [scan_actions_join e.actions hdata]
  decide

theorem xmlOk_generateDialplanXml (c : String) (m : Option ExtObj) (b : Body)
    (hexpr : attrSafeB (selectExt m b).expression = true)
    (hdata : ∀ a ∈ (selectExt m b).actions, attrSafeB (a.data.getD "") = true) :
    xmlStructOk (generateDialplanXml c m b) = true
    ∧ xmlOneExtOneCtx (generateDialplanXml c m b) = true := by
  have hscan : scanS initSt (generateDialplanXml c m b) = stFinal := by
    unfold generateDialplanXml
    repeat rw [scanS_append]
    rw [scan_docPrefix c, scan_extensionXml _ hexpr hdata]
    decide
  constructor
  · simp only [xmlStructOk]
    rw [hscan]
    decide
  · simp only [xmlOneExtOneCtx]
    rw [hscan]
    decide

theorem xmlOk_generateErrorXml (d : Option String) :
    xmlStructOk (generateErrorXml d) = true ∧ xmlOneExtOneCtx (generateErrorXml d) = true := by
  have hscan : scanS initSt (generateErrorXml d) = stFinal := by
    simp only [generateErrorXml]
    repeat rw [scanS_append]
    rw [show scanS (scanS (scanS (scanS initSt
          "<?xml version=\"1.0\" encoding=\"UTF-8\" standalone=\"no\"?>\n")
          "<document type=\"freeswitch/xml\"><section name=\"dialplan\"><context name=\"default\">\n")
          "  <extension name=\"application_error\">\n")
          "    <condition field=\"destination_number\" expression=\"^"
        = stCondVal from by decide]
    rw [scanS_attrVal_safe stCondVal "condition" _ rfl
          (attrSafeB_escapeAttribute (jsOrStr d "unknown"))]
    decide
  constructor
  · simp only [xmlStructOk]
    rw [hscan]
    decide
  · simp only [xmlOneExtOneCtx]
    rw [hscan]
    decide

theorem isPrefixOfL_mono (p l b : List Char) (h : isPrefixOfL p l = true) :
    isPrefixOfL p (l ++ b) = true := by
  induction p generalizing l with
  | nil => rfl
  | cons a as ih =>
    cases l with
    | nil => simp [isPrefixOfL] at h
    | cons x xs =>
      simp only [List.cons_append, isPrefixOfL, Bool.and_eq_true] at h ⊢
      exact ⟨h.1, ih xs h.2⟩

theorem entityAt_mono (l b : List Char) (h : entityAt l = true) :
    entityAt (l ++ b) = true := by
  simp only [entityAt, Bool.or_eq_true] at h ⊢
  rcases h with ((((h | h) | h) | h) | h)
  · exact Or.inl (Or.inl (Or.inl (Or.inl (isPrefixOfL_mono _ _ _ h))))
  · exact Or.inl (Or.inl (Or.inl (Or.inr (isPrefixOfL_mono _ _ _ h))))
  · exact Or.inl (Or.inl (Or.inr (isPrefixOfL_mono _ _ _ h)))
  · exact Or.inl (Or.inr (isPrefixOfL_mono _ _ _ h))
  · exact Or.inr (isPrefixOfL_mono _ _ _ h)

theorem ampOkL_append (a b : List Char) (ha : ampOkL a = true) (hb : ampOkL b = true) :
    ampOkL (a ++ b) = true := by
  induction a with
  | nil => simpa using hb
  | cons c rest ih =>
    simp only [ampOkL, Bool.and_eq_true] at ha
    simp only [List.cons_append, ampOkL, Bool.and_eq_true]
    refine ⟨?_, ih ha.2⟩
    by_cases hc : (c == '&') = true
    · simp only [hc, if_true] at ha ⊢
      exact entityAt_mono _ _ ha.1
    · simp [hc]

theorem ampOkL_of_free (l : List Char) (h : l.all ampFreeChar = true) :
    ampOkL l = true := by
  induction l with
  | nil => rfl
  | cons c rest ih =>
    simp only [List.all_cons, Bool.and_eq_true] at h
    have hc : (c == '&') = false := by
      have h1 := h.1
      simp only [ampFreeChar, Bool.not_eq_true'] at h1
      exact h1
    simp [ampOkL, hc, ih h.2]

theorem ampOk_of_ampFree (s : String) (h : ampFree s = true) : ampOk s = true :=
  ampOkL_of_free s.data h

theorem ampOk_append (a b : String) (ha : ampOk a = true) (hb : ampOk b = true) :
    ampOk (a ++ b) = true := by
  show ampOkL ((a ++ b).data) = true
  rw [String.data_append]
  exact ampOkL_append _ _ ha hb

theorem ampOkL_escAttrChar (c : Char) : ampOkL (escAttrChar c) = true := by
  unfold escAttrChar
  repeat' split
  all_goals first
  | decide
  | simp_all [ampOkL]

theorem ampOk_esc (s : String) : ampOk (escapeAttribute s) = true := by
  show ampOkL ((s.data.map escAttrChar).flatten) = true
  induction s.data with
  | nil => rfl
  | cons c rest ih =>
    simp only [List.map_cons, List.flatten_cons]
    exact ampOkL_append _ _ (ampOkL_escAttrChar c) ih

theorem ampOk_foldl (ss : List String) (acc : String) (hacc : ampOk acc = true)
    (h : ∀ s ∈ ss, ampOk s = true) :
    ampOk (ss.foldl (fun r s => r ++ s) acc) = true := by
  induction ss generalizing acc with
  | nil => exact hacc
  | cons a rest ih =>
    simp only [List.foldl_cons]
    exact ih _ (ampOk_append _ _ hacc (h a (List.mem_cons_self a rest)))
      (fun s hs => h s (List.mem_cons_of_mem a hs))

theorem amp_actionXml (a : DialplanAction) (h : ampFree (a.data.getD "") = true) :
    ampOk (actionXml a) = true := by
  unfold actionXml
  exact ampOk_append _ _ (ampOk_append _ _ (ampOk_append _ _ (ampOk_append _ _
    (by decide) (ampOk_esc _)) (by decide)) (ampOk_of_ampFree _ h)) (by decide)

theorem amp_join_actions (l : List DialplanAction)
    (h : ∀ a ∈ l, ampFree (a.data.getD "") = true) :
    ampOk (String.join (l.map actionXml)) = true := by
  rw [show String.join (l.map actionXml)
        = (l.map actionXml).foldl (fun r s => r ++ s) "" from rfl]
  refine ampOk_foldl _ _ (by decide) ?_
  intro s hs
  simp only [List.mem_map] at hs
  obtain ⟨a, ha, rfl⟩ := hs
  exact amp_actionXml a (h a ha)

theorem amp_extensionXml (e : ExtObj)
    (hexpr : ampFree e.expression = true)
    (hdata : ∀ a ∈ e.actions, ampFree (a.data.getD "") = true) :
    ampOk (extensionXml e) = true := by
  unfold extensionXml
  repeat' apply ampOk_append
  all_goals first
  | exact ampOk_of_ampFree _ hexpr
  | exact amp_join_actions e.actions hdata
  | exact ampOk_esc _
  | decide

theorem amp_generateDialplanXml (c : String) (m : Option ExtObj) (b : Body)
    (hexpr : ampFree (selectExt m b).expression = true)
    (hdata : ∀ a ∈ (selectExt m b).actions, ampFree (a.data.getD "") = true) :
    ampOk (generateDialplanXml c m b) = true := by
  unfold generateDialplanXml dialplanDocPrefix extensionXml
  repeat' apply ampOk_append
  all_goals first
  | exact ampOk_of_ampFree _ hexpr
  | exact amp_join_actions _ hdata
  | exact ampOk_esc _
  | decide

theorem amp_generateErrorXml (d : Option String) : ampOk (generateErrorXml d) = true := by
  simp only [generateErrorXml]
  repeat' apply ampOk_append
  all_goals first
  | exact ampOk_esc _
  | decide

theorem attrXmlSafeB_split (s : String) (h : attrXmlSafeB s = true) :
    attrSafeB s = true ∧ ampFree s = true := by
  simp only [attrXmlSafeB, attrSafeB, ampFree, xmlSafeChar, List.all_eq_true,
    Bool.and_eq_true] at h ⊢
  exact ⟨fun c hc => (h c hc).1, fun c hc => (h c hc).2⟩

/-- C4 (amended): whenever the verbatim-emitted strings of the rendered
extension (its condition `expression` and each action `data`) are
attribute-safe, the resolver's response is a well-formed document with
exactly one `extension` inside exactly one `context` — this also covers the
error path unconditionally. -/
theorem c4_wellformed_when_safe (env : Env) (body : Body)
    (h : okPathSafe env body = true) :
    xmlStructOk (lookup env body) = true ∧ xmlOneExtOneCtx (lookup env body) = true
    ∧ ampOk (lookup env body) = true := by
  unfold lookup lookupTry
  unfold okPathSafe at h
  cases hc : lookupCore env body with
  | error e =>
    exact ⟨(xmlOk_generateErrorXml body.callerDestinationNumber).1,
           (xmlOk_generateErrorXml body.callerDestinationNumber).2,
           amp_generateErrorXml body.callerDestinationNumber⟩
  | ok cm =>
    obtain ⟨c, m⟩ := cm
    rw [hc] at h
    have h2 : (attrXmlSafeB (selectExt m body).expression
        && (selectExt m body).actions.all (fun a => attrXmlSafeB (a.data.getD ""))) = true := h
    simp only [Bool.and_eq_true, List.all_eq_true] at h2
    obtain ⟨hes, hef⟩ := attrXmlSafeB_split _ h2.1
    have hds : ∀ a ∈ (selectExt m body).actions, attrSafeB (a.data.getD "") = true :=
      fun a ha => (attrXmlSafeB_split _ (h2.2 a ha)).1
    have hdf : ∀ a ∈ (selectExt m body).actions, ampFree (a.data.getD "") = true :=
      fun a ha => (attrXmlSafeB_split _ (h2.2 a ha)).2
    exact ⟨(xmlOk_generateDialplanXml c m body hes hds).1,
           (xmlOk_generateDialplanXml c m body hes hds).2,
           amp_generateDialplanXml c m body hef hdf⟩

theorem c4_wellformed_when_safe_witness :
    okPathSafe envC5 bodyC5 = true
    ∧ (xmlStructOk (lookup envC5 bodyC5) = true
       ∧ xmlOneExtOneCtx (lookup envC5 bodyC5) = true
       ∧ ampOk (lookup envC5 bodyC5) = true) :=
  ⟨by decide, c4_wellformed_when_safe envC5 bodyC5 (by decide)⟩

/-- C4 counterexample: the destination `a"b` flows unescaped through
`escapeRegExp` into the condition expression, so the emitted document is not
well-formed (the raw `"` ends the attribute early and the scanner rejects). -/
theorem c4_counterexample :
    xmlStructOk (lookup baseEnv bodyC4) = false
    ∧ xmlOneExtOneCtx (lookup baseEnv bodyC4) = false := by
  constructor <;> decide

end Mfc
